import Mathlib

/-!
# KubeLB: admission gate, finalizer lifecycle and diff-and-apply reconciliation

A shallow embedding of

* `agent/pkg/controllers/utils.go` (`MatchingAnnotationPredicate.Match`, `ContainsString`,
  `RemoveString`),
* `pkg/controllers/ccm/service_controller.go` (`Reconcile`, `cleanupService`,
  `enqueueLoadBalancer`, `getEndpoints`),
* `manager/pkg/controllers/layer4.go` (`reconcileService`, `reconcileEndpoints`, `mapService`,
  `mapEndpoints`).

API calls are modelled by explicit state passing: a client is a record of transition functions
over an arbitrary world type `σ`, and every call the code issues is appended to a call log, so
that "which writes were issued, in which order, with which payload" is a property of a value.
-/

namespace KubeLB

/-! ## Go values -/

/-- A Go slice value: `nil` is the nil slice and `mk xs` a non-nil slice holding `xs`.
`reflect.DeepEqual` tells a nil slice from an empty non-nil one, so the model keeps both. -/
inductive Slice (α : Type) where
  | nil : Slice α
  | mk (xs : List α) : Slice α
deriving DecidableEq, Repr

namespace Slice

/-- The elements a `range` loop visits, in order. -/
def toList {α : Type} : Slice α → List α
  | nil => []
  | mk xs => xs

/-- Go `append(s, x)`: the result is never nil. -/
def append {α : Type} (s : Slice α) (x : α) : Slice α :=
  mk (s.toList ++ [x])

end Slice

/-- A Go `map[string]string`, kept as an association list read by first match. -/
abbrev StringMap := List (String × String)

/-- The two-result index expression `val, ok := m[k]`: a missing key yields the zero value `""`
and `ok = false`. -/
def StringMap.index (m : StringMap) (k : String) : String × Bool :=
  match m.lookup k with
  | some v => (v, true)
  | none => ("", false)

/-! ## Errors -/

/-- The classification `apierrors` reads off an API error. -/
inductive StatusReason where
  | NotFound
  | Conflict
  | Other
deriving DecidableEq, Repr

/-- A non-nil Go `error` coming from an API call; a nil `error` is `none : Option Err`. -/
structure Err where
  reason : StatusReason
  msg : String
deriving DecidableEq, Repr

/-- The call `apierrors.IsNotFound(err)`; false on a nil error. -/
def IsNotFound : Option Err → Bool
  | none => false
  | some e => e.reason == StatusReason.NotFound

/-- The call `apierrors.IsConflict(err)`; false on a nil error. -/
def IsConflict : Option Err → Bool
  | none => false
  | some e => e.reason == StatusReason.Conflict

/-- The call `fmt.Errorf(pfx + "%w", err)`: a new non-nil error that wraps `err`, so the
classification of the cause is still visible through it. -/
def Errorf (pfx : String) (err : Err) : Err :=
  { reason := err.reason, msg := pfx ++ err.msg }

/-! ## Kubernetes objects

Field defaults are the Go zero values. -/

structure NamespacedName where
  Namespace : String := ""
  Name : String := ""
deriving DecidableEq, Repr

/-- The part of `metav1.ObjectMeta` the controllers read or that must survive an update.
`DeletionTimestamp` is a `*metav1.Time`; the instant is counted from Go's zero time. -/
structure ObjectMeta where
  Name : String := ""
  Namespace : String := ""
  UID : String := ""
  ResourceVersion : String := ""
  Labels : StringMap := []
  Annotations : StringMap := []
  Finalizers : Slice String := Slice.nil
  DeletionTimestamp : Option Nat := none
deriving DecidableEq, Repr

/-- The method `(*metav1.Time).IsZero`: a nil pointer or the zero instant. -/
def DeletionTimestampIsZero : Option Nat → Bool
  | none => true
  | some t => t == 0

namespace corev1

/-- The Go type `corev1.ServiceType` is a string type. Fields of this type are called `Type` in
Go and `Type_` here, `Type` being reserved. -/
abbrev ServiceType := String

def ServiceTypeClusterIP : ServiceType := "ClusterIP"
def ServiceTypeNodePort : ServiceType := "NodePort"
def ServiceTypeLoadBalancer : ServiceType := "LoadBalancer"
def ServiceTypeExternalName : ServiceType := "ExternalName"

/-- The type `intstr.IntOrString`: `Type` (here `Type_`) is 0 for an integer and 1 for a
string. -/
structure IntOrString where
  Type_ : Int := 0
  IntVal : Int := 0
  StrVal : String := ""
deriving DecidableEq, Repr

/-- All fields of `corev1.ServicePort`; `reflect.DeepEqual` compares every one of them, a
pointer by what it points to. -/
structure ServicePort where
  Name : String := ""
  Protocol : String := ""
  AppProtocol : Option String := none
  Port : Int := 0
  TargetPort : IntOrString := {}
  NodePort : Int := 0
deriving DecidableEq, Repr

structure ServiceSpec where
  Ports : Slice ServicePort := Slice.nil
  ClusterIP : String := ""
  Type_ : ServiceType := ""
deriving DecidableEq, Repr

structure PortStatus where
  Port : Int := 0
  Protocol : String := ""
  Error : Option String := none
deriving DecidableEq, Repr

/-- All fields of `corev1.LoadBalancerIngress`, compared as a whole by `reflect.DeepEqual`. -/
structure LoadBalancerIngress where
  IP : String := ""
  Hostname : String := ""
  Ports : Slice PortStatus := Slice.nil
deriving DecidableEq, Repr

structure LoadBalancerStatus where
  Ingress : Slice LoadBalancerIngress := Slice.nil
deriving DecidableEq, Repr

/-- The type `metav1.Condition`; the transition time is counted like a deletion timestamp. -/
structure Condition where
  Type_ : String := ""
  Status : String := ""
  ObservedGeneration : Int := 0
  LastTransitionTime : Nat := 0
  Reason : String := ""
  Message : String := ""
deriving DecidableEq, Repr

structure ServiceStatus where
  LoadBalancer : LoadBalancerStatus := {}
  Conditions : Slice Condition := Slice.nil
deriving DecidableEq, Repr

structure Service where
  ObjectMeta : ObjectMeta := {}
  Spec : ServiceSpec := {}
  Status : ServiceStatus := {}
deriving DecidableEq, Repr

structure ObjectReference where
  Kind : String := ""
  Namespace : String := ""
  Name : String := ""
  UID : String := ""
  APIVersion : String := ""
  ResourceVersion : String := ""
  FieldPath : String := ""
deriving DecidableEq, Repr

/-- All fields of `corev1.EndpointAddress`; `NodeName` and `TargetRef` are pointers. -/
structure EndpointAddress where
  IP : String := ""
  Hostname : String := ""
  NodeName : Option String := none
  TargetRef : Option ObjectReference := none
deriving DecidableEq, Repr

/-- All fields of `corev1.EndpointPort`. -/
structure EndpointPort where
  Name : String := ""
  Port : Int := 0
  Protocol : String := ""
  AppProtocol : Option String := none
deriving DecidableEq, Repr

/-- All fields of `corev1.EndpointSubset`, compared as a whole by `reflect.DeepEqual`. -/
structure EndpointSubset where
  Addresses : Slice EndpointAddress := Slice.nil
  NotReadyAddresses : Slice EndpointAddress := Slice.nil
  Ports : Slice EndpointPort := Slice.nil
deriving DecidableEq, Repr

structure Endpoints where
  ObjectMeta : ObjectMeta := {}
  Subsets : Slice EndpointSubset := Slice.nil
deriving DecidableEq, Repr

end corev1

namespace kubelbk8ciov1alpha1

structure LoadBalancerPort where
  Name : String := ""
  Port : Int := 0
  Protocol : String := ""
deriving DecidableEq, Repr

/-- The package's own `EndpointAddress`, a struct without pointer fields. -/
structure EndpointAddress where
  IP : String := ""
  Hostname : String := ""
deriving DecidableEq, Repr

/-- The package's own `EndpointPort`, a struct without pointer fields. -/
structure EndpointPort where
  Name : String := ""
  Port : Int := 0
  Protocol : String := ""
deriving DecidableEq, Repr

structure LoadBalancerEndpoints where
  Addresses : Slice EndpointAddress := Slice.nil
  Ports : Slice EndpointPort := Slice.nil
deriving DecidableEq, Repr

structure LoadBalancerSpec where
  Endpoints : Slice LoadBalancerEndpoints := Slice.nil
  Ports : Slice LoadBalancerPort := Slice.nil
  Type_ : corev1.ServiceType := ""
deriving DecidableEq, Repr

structure LoadBalancerStatus where
  LoadBalancer : corev1.LoadBalancerStatus := {}
deriving DecidableEq, Repr

structure LoadBalancer where
  ObjectMeta : ObjectMeta := {}
  Spec : LoadBalancerSpec := {}
  Status : LoadBalancerStatus := {}
deriving DecidableEq, Repr

end kubelbk8ciov1alpha1

namespace kubelbiov1alpha1

structure GlobalLoadBalancerSpec where
  Ports : Slice corev1.ServicePort := Slice.nil
  Subsets : Slice corev1.EndpointSubset := Slice.nil
deriving DecidableEq, Repr

structure GlobalLoadBalancer where
  ObjectMeta : ObjectMeta := {}
  Spec : GlobalLoadBalancerSpec := {}
deriving DecidableEq, Repr

end kubelbiov1alpha1

/-- The function `ctrlclient.ObjectKeyFromObject`. -/
def ObjectKeyFromObject (m : ObjectMeta) : NamespacedName :=
  { Namespace := m.Namespace, Name := m.Name }

/-! ## agent/pkg/controllers/utils.go -/

structure MatchingAnnotationPredicate where
  AnnotationName : String
  AnnotationValue : String
deriving DecidableEq, Repr

def MatchingAnnotationPredicate.Match (r : MatchingAnnotationPredicate)
    (annotations : StringMap) : Bool :=
  !((annotations.index r.AnnotationName).2 && (annotations.index r.AnnotationName).1 == "")
    && (annotations.index r.AnnotationName).1 == r.AnnotationValue

/-- The loop of `ContainsString`, returning at the first equal item. -/
def ContainsString.loop (s : String) : List String → Bool
  | [] => false
  | item :: rest => if item == s then true else ContainsString.loop s rest

def ContainsString (slice : Slice String) (s : String) : Bool :=
  ContainsString.loop s slice.toList

/-- The body of the loop of `RemoveString`: skip an equal item, append any other. -/
def RemoveString.step (s : String) (result : Slice String) (item : String) : Slice String :=
  if item == s then result else result.append item

/-- The named result starts out nil and stays nil when nothing is appended. -/
def RemoveString (slice : Slice String) (s : String) : Slice String :=
  slice.toList.foldl (RemoveString.step s) Slice.nil

/-! ## API clients and the call log -/

/-- One API call as the code issues it. The Service and Endpoints calls go through the
reconciler's own client (`r.Get`, `r.Create`, `r.Update`, `r.Client.Status().Update`), which for
the service controller is the tenant cluster; the LoadBalancer calls go through
`r.KubeLBManager.GetClient()`, the management cluster. -/
inductive Call where
  | GetService (key : NamespacedName)
  | CreateService (obj : corev1.Service)
  | UpdateService (obj : corev1.Service)
  | UpdateServiceStatus (obj : corev1.Service)
  | GetEndpoints (key : NamespacedName)
  | CreateEndpoints (obj : corev1.Endpoints)
  | UpdateEndpoints (obj : corev1.Endpoints)
  | GetLoadBalancer (key : NamespacedName)
  | CreateLoadBalancer (obj : kubelbk8ciov1alpha1.LoadBalancer)
  | UpdateLoadBalancer (obj : kubelbk8ciov1alpha1.LoadBalancer)
  | DeleteLoadBalancer (obj : kubelbk8ciov1alpha1.LoadBalancer)
deriving DecidableEq, Repr

namespace Call

/-- Reads: the three `Get` calls. -/
def isRead : Call → Bool
  | GetService _ => true
  | GetEndpoints _ => true
  | GetLoadBalancer _ => true
  | _ => false

/-- Writes: every create, update, status update and delete. -/
def isWrite (c : Call) : Bool := !c.isRead

/-- Calls on the management cluster's LoadBalancer store. -/
def isLoadBalancerCall : Call → Bool
  | GetLoadBalancer _ => true
  | CreateLoadBalancer _ => true
  | UpdateLoadBalancer _ => true
  | DeleteLoadBalancer _ => true
  | _ => false

/-- A (non-status) update of a Service. -/
def isUpdateService : Call → Bool
  | UpdateService _ => true
  | _ => false

/-- A create or an update of a LoadBalancer. -/
def isCreateOrUpdateLoadBalancer : Call → Bool
  | CreateLoadBalancer _ => true
  | UpdateLoadBalancer _ => true
  | _ => false

/-- A delete of a LoadBalancer. -/
def isDeleteLoadBalancer : Call → Bool
  | DeleteLoadBalancer _ => true
  | _ => false

/-- The two calls of the status back-propagation: the re-fetch of the Service and the update of
its status sub-resource. -/
def isStatusSyncCall : Call → Bool
  | GetService _ => true
  | UpdateServiceStatus _ => true
  | _ => false

/-- An update of a Service through the status sub-resource. -/
def isUpdateServiceStatus : Call → Bool
  | UpdateServiceStatus _ => true
  | _ => false

/-- The calls of the status back-propagation for the Service named `key` and the load-balancer
status `status`: a re-fetch by `key`, or a status update whose object carries `status`. -/
def isStatusSyncOf (key : NamespacedName) (status : corev1.LoadBalancerStatus) : Call → Bool
  | GetService k => decide (k = key)
  | UpdateServiceStatus obj => decide (obj.Status.LoadBalancer = status)
  | _ => false

end Call

/-- The state of an execution: the world behind the clients and the calls issued so far. -/
structure Run (σ : Type) where
  world : σ
  calls : List Call

/-- The methods used on Services. `Get`, `Update` and `StatusUpdate` write the object the server
answers with into the caller's variable, which is the `ok` value. -/
structure ServiceClient (σ : Type) where
  Get : σ → NamespacedName → Except Err corev1.Service × σ
  Create : σ → corev1.Service → Option Err × σ
  Update : σ → corev1.Service → Except Err corev1.Service × σ
  StatusUpdate : σ → corev1.Service → Except Err corev1.Service × σ

/-- The methods used on Endpoints; the object is not read again after a write. -/
structure EndpointsClient (σ : Type) where
  Get : σ → NamespacedName → Except Err corev1.Endpoints × σ
  Create : σ → corev1.Endpoints → Option Err × σ
  Update : σ → corev1.Endpoints → Option Err × σ

/-- The methods used on LoadBalancers; the object is not read again after a write. -/
structure LoadBalancerClient (σ : Type) where
  Get : σ → NamespacedName → Except Err kubelbk8ciov1alpha1.LoadBalancer × σ
  Create : σ → kubelbk8ciov1alpha1.LoadBalancer → Option Err × σ
  Update : σ → kubelbk8ciov1alpha1.LoadBalancer → Option Err × σ
  Delete : σ → kubelbk8ciov1alpha1.LoadBalancer → Option Err × σ

section calls
variable {σ : Type}

def ServiceClient.get (c : ServiceClient σ) (key : NamespacedName) (w : Run σ) :
    Except Err corev1.Service × Run σ :=
  ((c.Get w.world key).1, ⟨(c.Get w.world key).2, w.calls ++ [Call.GetService key]⟩)

def ServiceClient.create (c : ServiceClient σ) (obj : corev1.Service) (w : Run σ) :
    Option Err × Run σ :=
  ((c.Create w.world obj).1, ⟨(c.Create w.world obj).2, w.calls ++ [Call.CreateService obj]⟩)

def ServiceClient.update (c : ServiceClient σ) (obj : corev1.Service) (w : Run σ) :
    Except Err corev1.Service × Run σ :=
  ((c.Update w.world obj).1, ⟨(c.Update w.world obj).2, w.calls ++ [Call.UpdateService obj]⟩)

def ServiceClient.statusUpdate (c : ServiceClient σ) (obj : corev1.Service) (w : Run σ) :
    Except Err corev1.Service × Run σ :=
  ((c.StatusUpdate w.world obj).1,
    ⟨(c.StatusUpdate w.world obj).2, w.calls ++ [Call.UpdateServiceStatus obj]⟩)

def EndpointsClient.get (c : EndpointsClient σ) (key : NamespacedName) (w : Run σ) :
    Except Err corev1.Endpoints × Run σ :=
  ((c.Get w.world key).1, ⟨(c.Get w.world key).2, w.calls ++ [Call.GetEndpoints key]⟩)

def EndpointsClient.create (c : EndpointsClient σ) (obj : corev1.Endpoints) (w : Run σ) :
    Option Err × Run σ :=
  ((c.Create w.world obj).1, ⟨(c.Create w.world obj).2, w.calls ++ [Call.CreateEndpoints obj]⟩)

def EndpointsClient.update (c : EndpointsClient σ) (obj : corev1.Endpoints) (w : Run σ) :
    Option Err × Run σ :=
  ((c.Update w.world obj).1, ⟨(c.Update w.world obj).2, w.calls ++ [Call.UpdateEndpoints obj]⟩)

def LoadBalancerClient.get (c : LoadBalancerClient σ) (key : NamespacedName) (w : Run σ) :
    Except Err kubelbk8ciov1alpha1.LoadBalancer × Run σ :=
  ((c.Get w.world key).1, ⟨(c.Get w.world key).2, w.calls ++ [Call.GetLoadBalancer key]⟩)

def LoadBalancerClient.create (c : LoadBalancerClient σ) (obj : kubelbk8ciov1alpha1.LoadBalancer)
    (w : Run σ) : Option Err × Run σ :=
  ((c.Create w.world obj).1,
    ⟨(c.Create w.world obj).2, w.calls ++ [Call.CreateLoadBalancer obj]⟩)

def LoadBalancerClient.update (c : LoadBalancerClient σ) (obj : kubelbk8ciov1alpha1.LoadBalancer)
    (w : Run σ) : Option Err × Run σ :=
  ((c.Update w.world obj).1,
    ⟨(c.Update w.world obj).2, w.calls ++ [Call.UpdateLoadBalancer obj]⟩)

def LoadBalancerClient.delete (c : LoadBalancerClient σ) (obj : kubelbk8ciov1alpha1.LoadBalancer)
    (w : Run σ) : Option Err × Run σ :=
  ((c.Delete w.world obj).1,
    ⟨(c.Delete w.world obj).2, w.calls ++ [Call.DeleteLoadBalancer obj]⟩)

end calls

/-- The function `retry.RetryOnConflict` of client-go: `fn` is run at most `steps` times, again
only after a Conflict; the first nil or non-Conflict result is returned, and when the steps run
out the last Conflict is. `lastErr` starts out nil. -/
def RetryOnConflict {S : Type} : Nat → (S → Option Err × S) → S → Option Err → Option Err × S
  | 0, _, s, lastErr => (lastErr, s)
  | n + 1, fn, s, _ =>
    match fn s with
    | (none, s1) => (none, s1)
    | (some e, s1) => if IsConflict (some e) then RetryOnConflict n fn s1 (some e) else (some e, s1)

/-- The field `Steps` of `retry.DefaultRetry`. -/
def DefaultRetrySteps : Nat := 5

/-! ## pkg/controllers/ccm/service_controller.go -/

namespace kubelb

/-- The type `kubelb.Endpoints`, of which the controller reads `ClusterEndpoints`. -/
structure Endpoints where
  ClusterEndpoints : Slice String := Slice.nil
deriving DecidableEq, Repr

end kubelb

/-- Package `k8c.io/kubelb/pkg/kubelb` is not among the sources read here; what the service
controller calls from it is taken as a parameter. -/
structure KubelbPackage where
  MapLoadBalancer : corev1.Service → Slice String → String → kubelbk8ciov1alpha1.LoadBalancer
  LoadBalancerIsDesiredState :
    kubelbk8ciov1alpha1.LoadBalancer → kubelbk8ciov1alpha1.LoadBalancer → Bool
  LabelOriginNamespace : String
  LabelOriginName : String

def LBFinalizerName : String := "kubelb.k8c.io/lb-finalizer"

/-- The value `ctrl.Result{}`, the only one the code returns. -/
structure Result where
  Requeue : Bool := false
  RequeueAfter : Nat := 0
deriving DecidableEq, Repr

structure Request where
  NamespacedName : NamespacedName := {}
deriving DecidableEq, Repr

/-- The fields of the reconciler the code reads: `Client` is the embedded client (tenant
cluster), `KubeLBManager` stands for `KubeLBManager.GetClient()` (management cluster). -/
structure KubeLBServiceReconciler (σ : Type) where
  Client : ServiceClient σ
  KubeLBManager : LoadBalancerClient σ
  ClusterName : String
  CloudController : Bool
  Endpoints : kubelb.Endpoints

def AnnotationServiceClassMatcher : MatchingAnnotationPredicate :=
  { AnnotationName := "kubernetes.io/service.class", AnnotationValue := "kubelb" }

section ccm
variable {σ : Type}

/-- The body of the loop of `getEndpoints`. -/
def getEndpoints.step (clusterEndpoints : Slice String) (lbIngress : corev1.LoadBalancerIngress) :
    Slice String :=
  if lbIngress.IP != "" then clusterEndpoints.append lbIngress.IP
  else clusterEndpoints.append lbIngress.Hostname

def KubeLBServiceReconciler.getEndpoints (r : KubeLBServiceReconciler σ)
    (service : corev1.Service) : Slice String :=
  if service.Spec.Type_ == corev1.ServiceTypeLoadBalancer && !r.CloudController then
    service.Status.LoadBalancer.Ingress.toList.foldl getEndpoints.step Slice.nil
  else
    r.Endpoints.ClusterEndpoints

/-- The function `cleanupService`. `service` is a pointer in Go: the second component of the
result is the object it points to when the function returns. -/
def KubeLBServiceReconciler.cleanupService (r : KubeLBServiceReconciler σ)
    (service : corev1.Service) (w : Run σ) : (Result × Option Err) × corev1.Service × Run σ :=
  if !ContainsString service.ObjectMeta.Finalizers LBFinalizerName then
    (({}, none), service, w)
  else
    match r.KubeLBManager.delete
        { ObjectMeta := { Name := service.ObjectMeta.UID, Namespace := r.ClusterName } } w with
    | (err, w1) =>
      if IsNotFound err then
        (({}, none), service, w1)
      else
        match err with
        | some e => (({}, some (Errorf "deleting LoadBalancer: " e)), service, w1)
        | none =>
          match r.Client.update
              { service with
                ObjectMeta :=
                  { service.ObjectMeta with
                    Finalizers := RemoveString service.ObjectMeta.Finalizers LBFinalizerName } }
              w1 with
          | (Except.error e, w2) =>
            (({}, some e),
              { service with
                ObjectMeta :=
                  { service.ObjectMeta with
                    Finalizers := RemoveString service.ObjectMeta.Finalizers LBFinalizerName } },
              w2)
          | (Except.ok updated, w2) => (({}, none), updated, w2)

/-- The admission check of `Reconcile` (lines 83-84): true when `Reconcile` returns at once. -/
def Reconcile.notAdmitted (r : KubeLBServiceReconciler σ) (service : corev1.Service) : Bool :=
  (service.Spec.Type_ != corev1.ServiceTypeNodePort
      && service.Spec.Type_ != corev1.ServiceTypeLoadBalancer)
    || ((!r.CloudController || service.Spec.Type_ == corev1.ServiceTypeNodePort)
      && !AnnotationServiceClassMatcher.Match service.ObjectMeta.Annotations)

/-- Lines 106-113 of `Reconcile`: register the finalizer when it is missing. The `ok` value is
the `service` variable afterwards, the `error` value the error `Reconcile` returns. -/
def Reconcile.setFinalizer (r : KubeLBServiceReconciler σ) (service : corev1.Service)
    (w : Run σ) : Except Err corev1.Service × Run σ :=
  if !ContainsString service.ObjectMeta.Finalizers LBFinalizerName then
    r.Client.update
      { service with
        ObjectMeta :=
          { service.ObjectMeta with
            Finalizers := service.ObjectMeta.Finalizers.append LBFinalizerName } }
      w
  else
    (Except.ok service, w)

/-- The closure handed to `retry.RetryOnConflict` (lines 146-156); its state is the captured
`service` variable and the run. -/
def Reconcile.statusAttempt (r : KubeLBServiceReconciler σ) (key : NamespacedName)
    (actualLB : kubelbk8ciov1alpha1.LoadBalancer) (s : corev1.Service × Run σ) :
    Option Err × (corev1.Service × Run σ) :=
  match r.Client.get key s.2 with
  | (Except.error e, w1) => (some e, (s.1, w1))
  | (Except.ok fetched, w1) =>
    match r.Client.statusUpdate
        { fetched with Status := { fetched.Status with LoadBalancer := actualLB.Status.LoadBalancer } }
        w1 with
    | (Except.error e, w2) =>
      (some e,
        ({ fetched with
            Status := { fetched.Status with LoadBalancer := actualLB.Status.LoadBalancer } }, w2))
    | (Except.ok updated, w2) => (none, (updated, w2))

/-- Lines 138-161 of `Reconcile`: the status back-propagation. The result is the error
`Reconcile` returns, if any. -/
def Reconcile.syncStatus (r : KubeLBServiceReconciler σ) (service : corev1.Service)
    (actualLB : kubelbk8ciov1alpha1.LoadBalancer) (w : Run σ) : Option Err × Run σ :=
  if service.Spec.Type_ != corev1.ServiceTypeLoadBalancer
      || decide (actualLB.Status.LoadBalancer.Ingress = service.Status.LoadBalancer.Ingress) then
    (none, w)
  else if !decide (actualLB.Status.LoadBalancer.Ingress = service.Status.LoadBalancer.Ingress) then
    match RetryOnConflict DefaultRetrySteps
        (Reconcile.statusAttempt r (ObjectKeyFromObject service.ObjectMeta) actualLB)
        (service, w) none with
    | (some retErr, (service1, w1)) =>
      (some (Errorf ("failed to update status " ++ service1.ObjectMeta.Name ++ ": ") retErr), w1)
    | (none, (_, w1)) => (none, w1)
  else
    (none, w)

/-- Lines 169-170 of `Reconcile`: the fetched LoadBalancer with `Spec` and `Annotations`
overwritten from the desired one. -/
def Reconcile.mergeLoadBalancer (actualLB desiredLB : kubelbk8ciov1alpha1.LoadBalancer) :
    kubelbk8ciov1alpha1.LoadBalancer :=
  { actualLB with
    Spec := desiredLB.Spec
    ObjectMeta := { actualLB.ObjectMeta with Annotations := desiredLB.ObjectMeta.Annotations } }

/-- Lines 120-177 of `Reconcile`: diff-and-apply of the LoadBalancer, with the status
back-propagation in between. -/
def Reconcile.applyLoadBalancer (k : KubelbPackage) (r : KubeLBServiceReconciler σ)
    (service : corev1.Service) (desiredLB : kubelbk8ciov1alpha1.LoadBalancer) (w : Run σ) :
    (Result × Option Err) × Run σ :=
  match r.KubeLBManager.get (ObjectKeyFromObject desiredLB.ObjectMeta) w with
  | (Except.error err, w1) =>
    if !IsNotFound (some err) then
      (({}, some err), w1)
    else
      match r.KubeLBManager.create desiredLB w1 with
      | (res, w2) => (({}, res), w2)
  | (Except.ok actualLB, w1) =>
    match Reconcile.syncStatus r service actualLB w1 with
    | (some err, w2) => (({}, some err), w2)
    | (none, w2) =>
      if k.LoadBalancerIsDesiredState actualLB desiredLB then
        (({}, none), w2)
      else
        match r.KubeLBManager.update (Reconcile.mergeLoadBalancer actualLB desiredLB) w2 with
        | (res, w3) => (({}, res), w3)

/-- Lines 88-118 of `Reconcile`: what runs once the admission check has let the Service through,
up to the mapping of the desired LoadBalancer. -/
def Reconcile.admitted (k : KubelbPackage) (r : KubeLBServiceReconciler σ)
    (service : corev1.Service) (w : Run σ) : (Result × Option Err) × Run σ :=
  if !DeletionTimestampIsZero service.ObjectMeta.DeletionTimestamp then
    ((r.cleanupService service w).1, (r.cleanupService service w).2.2)
  else
    match Reconcile.setFinalizer r service w with
    | (Except.error err, w1) => (({}, some err), w1)
    | (Except.ok service1, w1) =>
      Reconcile.applyLoadBalancer k r service1
        (k.MapLoadBalancer service1 (r.getEndpoints service) r.ClusterName) w1

def KubeLBServiceReconciler.Reconcile (k : KubelbPackage) (r : KubeLBServiceReconciler σ)
    (req : Request) (w : Run σ) : (Result × Option Err) × Run σ :=
  match r.Client.get req.NamespacedName w with
  | (Except.error _, w1) => (({}, none), w1)
  | (Except.ok service, w1) =>
    if Reconcile.notAdmitted r service then
      (({}, none), w1)
    else
      Reconcile.admitted k r service w1

/-- The map function `enqueueLoadBalancer` returns; `a` is the event's object after the type
assertion to a LoadBalancer. -/
def KubeLBServiceReconciler.enqueueLoadBalancer (k : KubelbPackage)
    (r : KubeLBServiceReconciler σ) (a : kubelbk8ciov1alpha1.LoadBalancer) : Slice Request :=
  if a.ObjectMeta.Namespace != r.ClusterName then
    Slice.mk []
  else if a.Spec.Type_ != corev1.ServiceTypeLoadBalancer then
    Slice.mk []
  else if !(a.ObjectMeta.Labels.index k.LabelOriginNamespace).2
      || (a.ObjectMeta.Labels.index k.LabelOriginNamespace).1 == "" then
    Slice.mk []
  else if !(a.ObjectMeta.Labels.index k.LabelOriginName).2
      || (a.ObjectMeta.Labels.index k.LabelOriginName).1 == "" then
    Slice.mk []
  else
    Slice.mk
      [{ NamespacedName :=
          { Name := (a.ObjectMeta.Labels.index k.LabelOriginName).1
            Namespace := (a.ObjectMeta.Labels.index k.LabelOriginNamespace).1 } }]

end ccm

/-! ## manager/pkg/controllers/layer4.go -/

/-- The reconciler's embedded client, one record per kind it is used on. -/
structure GlobalLoadBalancerReconciler (σ : Type) where
  Services : ServiceClient σ
  Endpoints : EndpointsClient σ

section layer4
variable {σ : Type}

def GlobalLoadBalancerReconciler.reconcileService (r : GlobalLoadBalancerReconciler σ)
    (desiredService : corev1.Service) (w : Run σ) : Option Err × Run σ :=
  match r.Services.get
      { Name := desiredService.ObjectMeta.Name, Namespace := desiredService.ObjectMeta.Namespace }
      w with
  | (Except.error err, w1) =>
    if !IsNotFound (some err) then
      (some err, w1)
    else
      r.Services.create desiredService w1
  | (Except.ok actualService, w1) =>
    if !decide (desiredService.Spec.Ports = actualService.Spec.Ports) then
      match r.Services.update
          { actualService with Spec := { actualService.Spec with Ports := desiredService.Spec.Ports } }
          w1 with
      | (Except.error e, w2) => (some e, w2)
      | (Except.ok _, w2) => (none, w2)
    else
      (none, w1)

def GlobalLoadBalancerReconciler.reconcileEndpoints (r : GlobalLoadBalancerReconciler σ)
    (desiredEndpoints : corev1.Endpoints) (w : Run σ) : Option Err × Run σ :=
  match r.Endpoints.get
      { Name := desiredEndpoints.ObjectMeta.Name
        Namespace := desiredEndpoints.ObjectMeta.Namespace }
      w with
  | (Except.error err, w1) =>
    if !IsNotFound (some err) then
      (some err, w1)
    else
      r.Endpoints.create desiredEndpoints w1
  | (Except.ok actualEndpoints, w1) =>
    if !decide (desiredEndpoints.Subsets = actualEndpoints.Subsets) then
      r.Endpoints.update { actualEndpoints with Subsets := desiredEndpoints.Subsets } w1
    else
      (none, w1)

def GlobalLoadBalancerReconciler.mapService (_r : GlobalLoadBalancerReconciler σ)
    (glb : kubelbiov1alpha1.GlobalLoadBalancer) : corev1.Service :=
  { ObjectMeta := { Name := glb.ObjectMeta.Name, Namespace := glb.ObjectMeta.Namespace }
    Spec := { Ports := glb.Spec.Ports, Type_ := corev1.ServiceTypeLoadBalancer } }

def GlobalLoadBalancerReconciler.mapEndpoints (_r : GlobalLoadBalancerReconciler σ)
    (glb : kubelbiov1alpha1.GlobalLoadBalancer) : corev1.Endpoints :=
  { ObjectMeta := { Name := glb.ObjectMeta.Name, Namespace := glb.ObjectMeta.Namespace }
    Subsets := glb.Spec.Subsets }

end layer4

/-! ## A concrete scenario

The Service of the specification's scenario (`default/web`, UID `abc-123`, tenant `tenant-a`) and
clients over a one-point world that answer every call the same way. They are the inputs at which
the theorems below are instantiated. -/

namespace Scenario

/-- The admitted Service of the scenario, before the finalizer is registered. -/
def service : corev1.Service :=
  { ObjectMeta :=
      { Namespace := "default", Name := "web", UID := "abc-123", ResourceVersion := "7"
        Annotations := [("kubernetes.io/service.class", "kubelb")]
        Finalizers := Slice.mk ["example.com/other"] }
    Spec :=
      { Type_ := corev1.ServiceTypeLoadBalancer
        Ports := Slice.mk [{ Port := 80, Protocol := "TCP" }] } }

/-- The same Service with the finalizer registered. -/
def registered : corev1.Service :=
  { service with
    ObjectMeta :=
      { service.ObjectMeta with
        Finalizers := Slice.mk ["example.com/other", LBFinalizerName, "example.com/last"] } }

/-- The registered Service once its deletion has been requested. -/
def deleting : corev1.Service :=
  { registered with ObjectMeta := { registered.ObjectMeta with DeletionTimestamp := some 1 } }

/-- A ClusterIP Service, which the admission check turns away. -/
def clusterIP : corev1.Service :=
  { service with Spec := { service.Spec with Type_ := corev1.ServiceTypeClusterIP } }

/-- A tenant client that answers every `Get` with `svc`, and every write with `wrote`, echoing
the object on success. -/
def tenant (svc : corev1.Service) (wrote : Option Err) : ServiceClient Unit :=
  { Get := fun st _ => (Except.ok svc, st)
    Create := fun st _ => (wrote, st)
    Update := fun st obj =>
      match wrote with
      | none => (Except.ok obj, st)
      | some e => (Except.error e, st)
    StatusUpdate := fun st obj =>
      match wrote with
      | none => (Except.ok obj, st)
      | some e => (Except.error e, st) }

/-- A management client that answers every `Get` with `got` and every write with `wrote`. -/
def management (got : Except Err kubelbk8ciov1alpha1.LoadBalancer) (wrote : Option Err) :
    LoadBalancerClient Unit :=
  { Get := fun st _ => (got, st)
    Create := fun st _ => (wrote, st)
    Update := fun st _ => (wrote, st)
    Delete := fun st _ => (wrote, st) }

def reconciler (svc : corev1.Service) (tenantWrote : Option Err)
    (got : Except Err kubelbk8ciov1alpha1.LoadBalancer) (wrote : Option Err) :
    KubeLBServiceReconciler Unit :=
  { Client := tenant svc tenantWrote
    KubeLBManager := management got wrote
    ClusterName := "tenant-a"
    CloudController := false
    Endpoints := { ClusterEndpoints := Slice.mk ["10.0.0.1"] } }

/-- A sample instance of the package parameter: the mapping sets name to the Service UID,
namespace to the cluster identity, ports to the Service ports, one endpoint group per address,
the origin labels and the Service annotations; the predicate compares spec and annotations. -/
def pkg : KubelbPackage :=
  { MapLoadBalancer := fun svc eps cluster =>
      { ObjectMeta :=
          { Name := svc.ObjectMeta.UID, Namespace := cluster
            Labels :=
              [("kubelb.k8c.io/origin-ns", svc.ObjectMeta.Namespace),
                ("kubelb.k8c.io/origin-name", svc.ObjectMeta.Name)]
            Annotations := svc.ObjectMeta.Annotations }
        Spec :=
          { Type_ := svc.Spec.Type_
            Ports :=
              Slice.mk (svc.Spec.Ports.toList.map
                fun p => { Name := p.Name, Port := p.Port, Protocol := p.Protocol })
            Endpoints :=
              Slice.mk (eps.toList.map
                fun a => { Addresses := Slice.mk [{ IP := a }] }) } }
    LoadBalancerIsDesiredState := fun actual desired =>
      decide (actual.Spec = desired.Spec)
        && decide (actual.ObjectMeta.Annotations = desired.ObjectMeta.Annotations)
    LabelOriginNamespace := "kubelb.k8c.io/origin-ns"
    LabelOriginName := "kubelb.k8c.io/origin-name" }

/-- A client of the manager that answers every `Get` of a Service with `gotService`, every `Get`
of an Endpoints object with `gotEndpoints`, and every write with `wrote`. -/
def manager (gotService : Except Err corev1.Service) (gotEndpoints : Except Err corev1.Endpoints)
    (wrote : Option Err) : GlobalLoadBalancerReconciler Unit :=
  { Services :=
      { Get := fun st _ => (gotService, st)
        Create := fun st _ => (wrote, st)
        Update := fun st obj =>
          match wrote with
          | none => (Except.ok obj, st)
          | some e => (Except.error e, st)
        StatusUpdate := fun st obj =>
          match wrote with
          | none => (Except.ok obj, st)
          | some e => (Except.error e, st) }
    Endpoints :=
      { Get := fun st _ => (gotEndpoints, st)
        Create := fun st _ => (wrote, st)
        Update := fun st _ => (wrote, st) } }

/-- A legacy ingress resource with one port and one subset. -/
def glb : kubelbiov1alpha1.GlobalLoadBalancer :=
  { ObjectMeta := { Namespace := "default", Name := "glb" }
    Spec :=
      { Ports := Slice.mk [{ Port := 443, Protocol := "TCP" }]
        Subsets :=
          Slice.mk [{ Addresses := Slice.mk [{ IP := "10.0.0.7" }]
                      Ports := Slice.mk [{ Port := 8443, Protocol := "TCP" }] }] } }

/-- The Service the manager wants for `glb`. -/
def desiredService : corev1.Service :=
  { ObjectMeta := { Namespace := "default", Name := "glb" }
    Spec :=
      { Ports := Slice.mk [{ Port := 443, Protocol := "TCP" }]
        Type_ := corev1.ServiceTypeLoadBalancer } }

/-- The Endpoints object the manager wants for `glb`. -/
def desiredEndpoints : corev1.Endpoints :=
  { ObjectMeta := { Namespace := "default", Name := "glb" }
    Subsets :=
      Slice.mk [{ Addresses := Slice.mk [{ IP := "10.0.0.7" }]
                  Ports := Slice.mk [{ Port := 8443, Protocol := "TCP" }] }] }

/-- A stored Service for `glb` with an outdated port and server-side metadata. -/
def staleService : corev1.Service :=
  { ObjectMeta :=
      { Namespace := "default", Name := "glb", UID := "svc-uid", ResourceVersion := "41"
        Labels := [("team", "edge")] }
    Spec :=
      { Ports := Slice.mk [{ Port := 80, Protocol := "TCP" }]
        ClusterIP := "10.96.0.12"
        Type_ := corev1.ServiceTypeLoadBalancer }
    Status := { LoadBalancer := { Ingress := Slice.mk [{ IP := "192.0.2.1" }] } } }

/-- A stored Endpoints object for `glb` with no subsets and server-side metadata. -/
def staleEndpoints : corev1.Endpoints :=
  { ObjectMeta :=
      { Namespace := "default", Name := "glb", UID := "ep-uid", ResourceVersion := "42" } }

/-- The desired LoadBalancer of the registered Service. -/
def desiredLB : kubelbk8ciov1alpha1.LoadBalancer :=
  pkg.MapLoadBalancer registered Slice.nil "tenant-a"

/-- A stored LoadBalancer in the desired state, with server-side metadata and the same (empty)
ingress status as the Service. -/
def actualLB : kubelbk8ciov1alpha1.LoadBalancer :=
  { desiredLB with
    ObjectMeta := { desiredLB.ObjectMeta with UID := "lb-uid", ResourceVersion := "9" } }

/-- A stored LoadBalancer whose spec is outdated. -/
def staleLB : kubelbk8ciov1alpha1.LoadBalancer :=
  { actualLB with Spec := { actualLB.Spec with Ports := Slice.nil } }

/-- A stored LoadBalancer in the desired state to which an address has been assigned. -/
def provisionedLB : kubelbk8ciov1alpha1.LoadBalancer :=
  { actualLB with
    Status := { LoadBalancer := { Ingress := Slice.mk [{ IP := "203.0.113.5" }] } } }

/-- A LoadBalancer-type Service fronted by an existing load balancer with two ingress entries,
the first with an IP and the second with a hostname only. -/
def fronted : corev1.Service :=
  { registered with
    Status :=
      { LoadBalancer := { Ingress := Slice.mk [{ IP := "1.2.3.4" }, { Hostname := "h" }] } } }

/-- The registered Service after its service-class annotation was removed and its deletion was
requested. -/
def orphaned : corev1.Service :=
  { deleting with ObjectMeta := { deleting.ObjectMeta with Annotations := [] } }

/-- A tenant client none of whose calls gets through: every call fails with `e`. -/
def failingTenant (e : Err) : ServiceClient Unit :=
  { Get := fun st _ => (Except.error e, st)
    Create := fun st _ => (some e, st)
    Update := fun st _ => (Except.error e, st)
    StatusUpdate := fun st _ => (Except.error e, st) }

/-- The reconciler of the scenario behind a tenant client that fails with `e`. -/
def cutOff (e : Err) (got : Except Err kubelbk8ciov1alpha1.LoadBalancer) :
    KubeLBServiceReconciler Unit :=
  { Client := failingTenant e
    KubeLBManager := management got none
    ClusterName := "tenant-a"
    CloudController := false
    Endpoints := { ClusterEndpoints := Slice.mk ["10.0.0.1"] } }

/-- A transient server error. -/
def serverError : Err := { reason := StatusReason.Other, msg := "connection refused" }

/-- The NotFound error of the API machinery. -/
def notFound : Err := { reason := StatusReason.NotFound, msg := "not found" }

def request : Request := { NamespacedName := { Namespace := "default", Name := "web" } }

/-- A fresh execution. -/
def start : Run Unit := ⟨(), []⟩

end Scenario

/-! ## Helper lemmas -/

theorem StringMap.index_of_lookup_some (m : StringMap) (k v : String)
    (h : m.lookup k = some v) : StringMap.index m k = (v, true) := by
  simp [StringMap.index, h]

theorem StringMap.index_of_lookup_none (m : StringMap) (k : String)
    (h : m.lookup k = none) : StringMap.index m k = ("", false) := by
  simp [StringMap.index, h]

theorem ContainsString.loop_iff (s : String) (xs : List String) :
    ContainsString.loop s xs = true ↔ s ∈ xs := by
  induction xs with
  | nil => simp [ContainsString.loop]
  | cons x rest ih =>
    by_cases hx : x = s
    · simp [ContainsString.loop, hx]
    · have hx2 : ¬ s = x := fun h => hx h.symm
      simp [ContainsString.loop, hx, hx2, ih]

theorem ContainsString_iff (slice : Slice String) (s : String) :
    ContainsString slice s = true ↔ s ∈ slice.toList := by
  simp [ContainsString, ContainsString.loop_iff]

theorem Slice.toList_nil {α : Type} : (Slice.nil : Slice α).toList = [] := rfl

theorem Slice.toList_mk {α : Type} (xs : List α) : (Slice.mk xs).toList = xs := rfl

theorem Slice.toList_append {α : Type} (s : Slice α) (x : α) :
    (s.append x).toList = s.toList ++ [x] := rfl

theorem RemoveString.foldl_toList (s : String) (xs : List String) (acc : Slice String) :
    (xs.foldl (RemoveString.step s) acc).toList = acc.toList ++ xs.filter (fun x => x != s) := by
  induction xs generalizing acc with
  | nil => simp
  | cons x rest ih =>
    by_cases hx : x = s
    · simp [List.foldl, RemoveString.step, hx, ih]
    · simp [List.foldl, RemoveString.step, hx, ih, Slice.toList_append]

theorem RemoveString_toList (slice : Slice String) (s : String) :
    (RemoveString slice s).toList = slice.toList.filter (fun x => x != s) := by
  simp [RemoveString, RemoveString.foldl_toList, Slice.toList_nil]

/-! ## The admission gate -/

/-- C5, as the code has it: `Match` is true exactly when the configured name is present with a
non-empty value equal to the configured value, or the name is absent and the configured value
is the empty string. On the empty map `Match` is therefore false for every non-empty configured
value, and true for the empty one. -/
theorem Match_iff (annotations : StringMap) (key value : String) :
    (MatchingAnnotationPredicate.Match ⟨key, value⟩ annotations = true ↔
      ((∃ v, annotations.lookup key = some v ∧ v ≠ "" ∧ v = value)
        ∨ (annotations.lookup key = none ∧ value = "")))
    ∧ (value ≠ "" → MatchingAnnotationPredicate.Match ⟨key, value⟩ [] = false)
    ∧ MatchingAnnotationPredicate.Match ⟨key, ""⟩ [] = true := by
  refine ⟨?_, ?_, ?_⟩
  · cases h : annotations.lookup key with
    | none =>
      simp [MatchingAnnotationPredicate.Match, StringMap.index, h]
      exact eq_comm
    | some v =>
      simp [MatchingAnnotationPredicate.Match, StringMap.index, h]
  · intro hv
    have hv2 : ¬ "" = value := fun h => hv h.symm
    simp [MatchingAnnotationPredicate.Match, StringMap.index, hv2]
  · simp [MatchingAnnotationPredicate.Match, StringMap.index]

/-- C5, as stated, fails: with the empty string configured as the value, `Match` is true on the
empty map, where the name is not present at all. -/
theorem Match_empty_map_counterexample :
    MatchingAnnotationPredicate.Match ⟨"kubernetes.io/service.class", ""⟩ [] = true
      ∧ ¬ (∃ v, ([] : StringMap).lookup "kubernetes.io/service.class" = some v
            ∧ v ≠ "" ∧ v = "") := by
  refine ⟨?_, ?_⟩
  · simp [MatchingAnnotationPredicate.Match, StringMap.index]
  · simp

/-- C6: when the configured name is present with the empty string as its value, `Match` is false
for every configured value, the empty string included. -/
theorem Match_present_empty (annotations : StringMap) (key value : String)
    (h : annotations.lookup key = some "") :
    MatchingAnnotationPredicate.Match ⟨key, value⟩ annotations = false := by
  simp [MatchingAnnotationPredicate.Match, StringMap.index, h]

theorem Match_present_empty_witness :
    List.lookup "kubernetes.io/service.class" [("kubernetes.io/service.class", "")] = some ""
      ∧ MatchingAnnotationPredicate.Match ⟨"kubernetes.io/service.class", ""⟩
          [("kubernetes.io/service.class", "")] = false :=
  ⟨by decide, Match_present_empty _ _ _ (by decide)⟩

theorem Match_iff_witness :
    "kubelb" ≠ "" ∧ MatchingAnnotationPredicate.Match ⟨"kubernetes.io/service.class", "kubelb"⟩ []
      = false :=
  ⟨by decide, (Match_iff [] "kubernetes.io/service.class" "kubelb").2.1 (by decide)⟩

theorem ServiceTypeNodePort_ne_LoadBalancer :
    corev1.ServiceTypeNodePort ≠ corev1.ServiceTypeLoadBalancer := by decide

section admission
variable {σ : Type}

theorem Reconcile.notAdmitted_eq_false_iff (r : KubeLBServiceReconciler σ)
    (service : corev1.Service) :
    Reconcile.notAdmitted r service = false ↔
      ((service.Spec.Type_ = corev1.ServiceTypeNodePort
          ∨ service.Spec.Type_ = corev1.ServiceTypeLoadBalancer)
        ∧ (AnnotationServiceClassMatcher.Match service.ObjectMeta.Annotations = true
          ∨ (r.CloudController = true
            ∧ service.Spec.Type_ = corev1.ServiceTypeLoadBalancer))) := by
  have hne := ServiceTypeNodePort_ne_LoadBalancer
  unfold Reconcile.notAdmitted
  cases hm : AnnotationServiceClassMatcher.Match service.ObjectMeta.Annotations <;>
    cases hc : r.CloudController <;>
    by_cases hn : service.Spec.Type_ = corev1.ServiceTypeNodePort <;>
    by_cases hl : service.Spec.Type_ = corev1.ServiceTypeLoadBalancer <;>
    simp_all

/-- C4: for every Service type, cloud-controller flag and annotation map, the admission check of
`Reconcile` lets the fetched Service through iff its type is NodePort or LoadBalancer and (the
service-class annotation gate matches, or cloud-controller mode is on and the type is
LoadBalancer). When it does, `Reconcile` runs the rest of its body; when it does not,
`Reconcile` returns success having issued only the read of the Service, so no write on either
cluster. -/
theorem Reconcile_admission (k : KubelbPackage) (r : KubeLBServiceReconciler σ) (req : Request)
    (w : Run σ) (service : corev1.Service) (st1 : σ)
    (hget : r.Client.Get w.world req.NamespacedName = (Except.ok service, st1)) :
    (Reconcile.notAdmitted r service = false ↔
      ((service.Spec.Type_ = corev1.ServiceTypeNodePort
          ∨ service.Spec.Type_ = corev1.ServiceTypeLoadBalancer)
        ∧ (AnnotationServiceClassMatcher.Match service.ObjectMeta.Annotations = true
          ∨ (r.CloudController = true
            ∧ service.Spec.Type_ = corev1.ServiceTypeLoadBalancer))))
    ∧ (((service.Spec.Type_ = corev1.ServiceTypeNodePort
          ∨ service.Spec.Type_ = corev1.ServiceTypeLoadBalancer)
        ∧ (AnnotationServiceClassMatcher.Match service.ObjectMeta.Annotations = true
          ∨ (r.CloudController = true
            ∧ service.Spec.Type_ = corev1.ServiceTypeLoadBalancer))) →
        r.Reconcile k req w =
          Reconcile.admitted k r service
            ⟨st1, w.calls ++ [Call.GetService req.NamespacedName]⟩)
    ∧ (¬ ((service.Spec.Type_ = corev1.ServiceTypeNodePort
          ∨ service.Spec.Type_ = corev1.ServiceTypeLoadBalancer)
        ∧ (AnnotationServiceClassMatcher.Match service.ObjectMeta.Annotations = true
          ∨ (r.CloudController = true
            ∧ service.Spec.Type_ = corev1.ServiceTypeLoadBalancer))) →
        r.Reconcile k req w =
            (({}, none), ⟨st1, w.calls ++ [Call.GetService req.NamespacedName]⟩)
          ∧ ∀ c ∈ [Call.GetService req.NamespacedName], c.isWrite = false) := by
  refine ⟨Reconcile.notAdmitted_eq_false_iff r service, ?_, ?_⟩
  · intro h
    have hna := (Reconcile.notAdmitted_eq_false_iff r service).2 h
    simp [KubeLBServiceReconciler.Reconcile, ServiceClient.get, hget, hna]
  · intro h
    have hna : Reconcile.notAdmitted r service = true := by
      cases hb : Reconcile.notAdmitted r service with
      | true => rfl
      | false => exact absurd ((Reconcile.notAdmitted_eq_false_iff r service).1 hb) h
    refine ⟨?_, ?_⟩
    · simp [KubeLBServiceReconciler.Reconcile, ServiceClient.get, hget, hna]
    · simp [Call.isWrite, Call.isRead]

end admission

theorem Reconcile_admission_witness :
    (Scenario.reconciler Scenario.clusterIP none (Except.error Scenario.notFound) none).Reconcile
        Scenario.pkg Scenario.request Scenario.start
      = (({}, none), ⟨(), [Call.GetService Scenario.request.NamespacedName]⟩) :=
  ((Reconcile_admission Scenario.pkg
      (Scenario.reconciler Scenario.clusterIP none (Except.error Scenario.notFound) none)
      Scenario.request Scenario.start Scenario.clusterIP () rfl).2.2 (by decide)).1

/-! ## The finalizer lifecycle: deletion -/

section cleanup
variable {σ : Type}

/-- The calls `cleanupService` issues, case by case. -/
theorem cleanupService_calls (r : KubeLBServiceReconciler σ) (service : corev1.Service)
    (w : Run σ) :
    (r.cleanupService service w).2.2.calls = w.calls ++
      (if ContainsString service.ObjectMeta.Finalizers LBFinalizerName = false then []
       else if (r.KubeLBManager.Delete w.world
            { ObjectMeta := { Name := service.ObjectMeta.UID, Namespace := r.ClusterName } }).1
              = none then
          [Call.DeleteLoadBalancer
              { ObjectMeta := { Name := service.ObjectMeta.UID, Namespace := r.ClusterName } },
            Call.UpdateService
              { service with
                ObjectMeta :=
                  { service.ObjectMeta with
                    Finalizers := RemoveString service.ObjectMeta.Finalizers LBFinalizerName } }]
       else
          [Call.DeleteLoadBalancer
              { ObjectMeta := { Name := service.ObjectMeta.UID, Namespace := r.ClusterName } }])
    := by
  unfold KubeLBServiceReconciler.cleanupService
  cases hfin : ContainsString service.ObjectMeta.Finalizers LBFinalizerName with
  | false => simp
  | true =>
    simp only [Bool.not_true, Bool.false_eq_true, if_false, LoadBalancerClient.delete]
    cases hdel : (r.KubeLBManager.Delete w.world
        { ObjectMeta := { Name := service.ObjectMeta.UID, Namespace := r.ClusterName } }).1 with
    | some e =>
      cases hnf : IsNotFound (some e) <;> simp [hnf]
    | none =>
      simp only [IsNotFound, Bool.false_eq_true, if_false, ServiceClient.update]
      cases hupd : (r.Client.Update (r.KubeLBManager.Delete w.world
          { ObjectMeta := { Name := service.ObjectMeta.UID, Namespace := r.ClusterName } }).2
          { service with
            ObjectMeta :=
              { service.ObjectMeta with
                Finalizers := RemoveString service.ObjectMeta.Finalizers LBFinalizerName } }).1
        <;> simp

/-- What `cleanupService` does when the downstream delete answers NotFound. -/
theorem cleanupService_of_notFound (r : KubeLBServiceReconciler σ) (service : corev1.Service)
    (w : Run σ)
    (hfin : ContainsString service.ObjectMeta.Finalizers LBFinalizerName = true)
    (hnf : IsNotFound (r.KubeLBManager.Delete w.world
        { ObjectMeta := { Name := service.ObjectMeta.UID, Namespace := r.ClusterName } }).1
          = true) :
    r.cleanupService service w =
      (({}, none), service,
        ⟨(r.KubeLBManager.Delete w.world
            { ObjectMeta := { Name := service.ObjectMeta.UID, Namespace := r.ClusterName } }).2,
          w.calls ++ [Call.DeleteLoadBalancer
            { ObjectMeta := { Name := service.ObjectMeta.UID, Namespace := r.ClusterName } }]⟩)
    := by
  simp [KubeLBServiceReconciler.cleanupService, hfin, LoadBalancerClient.delete, hnf]

/-- C1: for every Service carrying the lb-finalizer token and every error of the downstream
LoadBalancer delete that is not NotFound, `cleanupService` returns a non-nil error, issues the
delete and nothing else (so no update of the Service), and leaves the Service, its finalizer list
included, as it was. Consequently, whenever `cleanupService` issues a Service update, the
delete it issued just before returned success, and the update is the only call after it. -/
theorem cleanupService_delete_error (r : KubeLBServiceReconciler σ) (service : corev1.Service)
    (w : Run σ) (e : Err)
    (hfin : ContainsString service.ObjectMeta.Finalizers LBFinalizerName = true)
    (hdel : (r.KubeLBManager.Delete w.world
        { ObjectMeta := { Name := service.ObjectMeta.UID, Namespace := r.ClusterName } }).1
          = some e)
    (hnf : IsNotFound (some e) = false) :
    (r.cleanupService service w).1.2 ≠ none
    ∧ (r.cleanupService service w).2.2.calls = w.calls ++ [Call.DeleteLoadBalancer
        { ObjectMeta := { Name := service.ObjectMeta.UID, Namespace := r.ClusterName } }]
    ∧ (∀ c ∈ (r.cleanupService service w).2.2.calls.drop w.calls.length,
        c.isUpdateService = false)
    ∧ (r.cleanupService service w).2.1 = service
    ∧ (r.cleanupService service w).2.1.ObjectMeta.Finalizers = service.ObjectMeta.Finalizers
    ∧ (∀ (service1 : corev1.Service) (w1 : Run σ) (issued : List Call) (obj : corev1.Service),
        (r.cleanupService service1 w1).2.2.calls = w1.calls ++ issued →
        Call.UpdateService obj ∈ issued →
        (r.KubeLBManager.Delete w1.world
            { ObjectMeta := { Name := service1.ObjectMeta.UID, Namespace := r.ClusterName } }).1
              = none
          ∧ issued = [Call.DeleteLoadBalancer
                { ObjectMeta := { Name := service1.ObjectMeta.UID, Namespace := r.ClusterName } },
              Call.UpdateService obj]) := by
  have hcalls := cleanupService_calls r service w
  simp only [hfin, hdel, Bool.true_eq_false, if_false, reduceCtorEq] at hcalls
  have hres : r.cleanupService service w =
      (({}, some (Errorf "deleting LoadBalancer: " e)), service,
        ⟨(r.KubeLBManager.Delete w.world
            { ObjectMeta := { Name := service.ObjectMeta.UID, Namespace := r.ClusterName } }).2,
          w.calls ++ [Call.DeleteLoadBalancer
            { ObjectMeta := { Name := service.ObjectMeta.UID, Namespace := r.ClusterName } }]⟩)
      := by
    simp [KubeLBServiceReconciler.cleanupService, hfin, LoadBalancerClient.delete, hdel, hnf]
  refine ⟨?_, hcalls, ?_, ?_, ?_, ?_⟩
  · simp [hres]
  · simp [hcalls, Call.isUpdateService]
  · simp [hres]
  · simp [hres]
  · intro service1 w1 issued obj hiss hmem
    have h1 := cleanupService_calls r service1 w1
    rw [hiss] at h1
    have h2 := List.append_cancel_left h1
    subst h2
    by_cases hf : ContainsString service1.ObjectMeta.Finalizers LBFinalizerName = false
    · simp [hf] at hmem
    · by_cases hd : (r.KubeLBManager.Delete w1.world
          { ObjectMeta := { Name := service1.ObjectMeta.UID, Namespace := r.ClusterName } }).1
            = none
      · simp only [hf, hd, if_true, if_false] at hmem ⊢
        simp at hmem
        simp [hmem]
      · simp [hf, hd] at hmem

theorem cleanupService_delete_error_witness :
    ((Scenario.reconciler Scenario.deleting none (Except.error Scenario.notFound)
          (some Scenario.serverError)).cleanupService Scenario.deleting Scenario.start).1.2
        ≠ none
      ∧ ((Scenario.reconciler Scenario.deleting none (Except.error Scenario.notFound)
          (some Scenario.serverError)).cleanupService Scenario.deleting Scenario.start).2.1
        = Scenario.deleting :=
  have h := cleanupService_delete_error
    (Scenario.reconciler Scenario.deleting none (Except.error Scenario.notFound)
      (some Scenario.serverError))
    Scenario.deleting Scenario.start Scenario.serverError (by decide) rfl (by decide)
  ⟨h.1, h.2.2.2.1⟩

/-- C3 fails on the code: at the deleting Service of the scenario, with the downstream delete
answering NotFound, `cleanupService` returns nil right after the delete; it issues no Service
update and the lb-finalizer token is still on the Service, whereas with a delete that returns
no error it goes on to issue the update that removes the token. -/
theorem cleanupService_notFound_keeps_finalizer :
    (Scenario.reconciler Scenario.deleting none (Except.error Scenario.notFound)
        (some Scenario.notFound)).cleanupService Scenario.deleting Scenario.start
      = (({}, none), Scenario.deleting,
          ⟨(), [Call.DeleteLoadBalancer
            { ObjectMeta := { Name := "abc-123", Namespace := "tenant-a" } }]⟩)
    ∧ ContainsString Scenario.deleting.ObjectMeta.Finalizers LBFinalizerName = true
    ∧ ((Scenario.reconciler Scenario.deleting none (Except.error Scenario.notFound)
        none).cleanupService Scenario.deleting Scenario.start).2.2.calls
      = [Call.DeleteLoadBalancer { ObjectMeta := { Name := "abc-123", Namespace := "tenant-a" } },
          Call.UpdateService
            { Scenario.deleting with
              ObjectMeta :=
                { Scenario.deleting.ObjectMeta with
                  Finalizers := Slice.mk ["example.com/other", "example.com/last"] } }] := by
  refine ⟨?_, by decide, ?_⟩
  · exact cleanupService_of_notFound
      (Scenario.reconciler Scenario.deleting none (Except.error Scenario.notFound)
        (some Scenario.notFound))
      Scenario.deleting Scenario.start (by decide) (by decide)
  · decide

/-- C2: for every admitted Service with the deletion timestamp set and the lb-finalizer token
present, when the downstream delete succeeds, `Reconcile` issues, after the read of the Service,
exactly one delete of the LoadBalancer named by the Service UID in the namespace `ClusterName`
and then exactly one Service update; the updated object is the Service with the token removed
from its finalizers and all other finalizers kept in their order; no LoadBalancer create or
update is issued. -/
theorem Reconcile_deleting (k : KubelbPackage) (r : KubeLBServiceReconciler σ) (req : Request)
    (w : Run σ) (service : corev1.Service) (st1 : σ)
    (hget : r.Client.Get w.world req.NamespacedName = (Except.ok service, st1))
    (hadm : Reconcile.notAdmitted r service = false)
    (hdts : DeletionTimestampIsZero service.ObjectMeta.DeletionTimestamp = false)
    (hfin : ContainsString service.ObjectMeta.Finalizers LBFinalizerName = true)
    (hdel : (r.KubeLBManager.Delete st1
        { ObjectMeta := { Name := service.ObjectMeta.UID, Namespace := r.ClusterName } }).1
          = none) :
    (r.Reconcile k req w).2.calls = w.calls ++
        [Call.GetService req.NamespacedName,
          Call.DeleteLoadBalancer
            { ObjectMeta := { Name := service.ObjectMeta.UID, Namespace := r.ClusterName } },
          Call.UpdateService
            { service with
              ObjectMeta :=
                { service.ObjectMeta with
                  Finalizers := RemoveString service.ObjectMeta.Finalizers LBFinalizerName } }]
    ∧ (RemoveString service.ObjectMeta.Finalizers LBFinalizerName).toList
        = service.ObjectMeta.Finalizers.toList.filter (fun x => x != LBFinalizerName)
    ∧ ContainsString (RemoveString service.ObjectMeta.Finalizers LBFinalizerName)
        LBFinalizerName = false
    ∧ (∀ c ∈ (r.Reconcile k req w).2.calls.drop w.calls.length,
        c.isCreateOrUpdateLoadBalancer = false)
    ∧ ((r.Reconcile k req w).2.calls.drop w.calls.length).countP Call.isDeleteLoadBalancer = 1
    ∧ ((r.Reconcile k req w).2.calls.drop w.calls.length).countP Call.isUpdateService = 1 := by
  have hrec : r.Reconcile k req w =
      ((r.cleanupService service ⟨st1, w.calls ++ [Call.GetService req.NamespacedName]⟩).1,
        (r.cleanupService service ⟨st1, w.calls ++ [Call.GetService req.NamespacedName]⟩).2.2)
      := by
    simp [KubeLBServiceReconciler.Reconcile, ServiceClient.get, hget, hadm, Reconcile.admitted,
      hdts]
  have hcalls := cleanupService_calls r service
    ⟨st1, w.calls ++ [Call.GetService req.NamespacedName]⟩
  simp only [hfin, hdel, Bool.true_eq_false, if_false, if_true] at hcalls
  have hall : (r.Reconcile k req w).2.calls = w.calls ++
        [Call.GetService req.NamespacedName,
          Call.DeleteLoadBalancer
            { ObjectMeta := { Name := service.ObjectMeta.UID, Namespace := r.ClusterName } },
          Call.UpdateService
            { service with
              ObjectMeta :=
                { service.ObjectMeta with
                  Finalizers := RemoveString service.ObjectMeta.Finalizers LBFinalizerName } }]
      := by
    rw [hrec]
    simp [hcalls]
  refine ⟨hall, RemoveString_toList _ _, ?_, ?_, ?_, ?_⟩
  · cases hc : ContainsString (RemoveString service.ObjectMeta.Finalizers LBFinalizerName)
        LBFinalizerName with
    | false => rfl
    | true =>
      have hmem := (ContainsString_iff _ _).1 hc
      rw [RemoveString_toList] at hmem
      simp at hmem
  · rw [hall]
    simp [Call.isCreateOrUpdateLoadBalancer]
  · rw [hall]
    simp [Call.isDeleteLoadBalancer, List.countP_cons]
  · rw [hall]
    simp [Call.isUpdateService, List.countP_cons]

theorem Reconcile_deleting_witness :
    ((Scenario.reconciler Scenario.deleting none (Except.error Scenario.notFound) none).Reconcile
        Scenario.pkg Scenario.request Scenario.start).2.calls
      = [] ++ [Call.GetService { Namespace := "default", Name := "web" },
          Call.DeleteLoadBalancer { ObjectMeta := { Name := "abc-123", Namespace := "tenant-a" } },
          Call.UpdateService
            { Scenario.deleting with
              ObjectMeta :=
                { Scenario.deleting.ObjectMeta with
                  Finalizers := RemoveString (Slice.mk
                    ["example.com/other", LBFinalizerName, "example.com/last"])
                    LBFinalizerName } }] :=
  (Reconcile_deleting Scenario.pkg
    (Scenario.reconciler Scenario.deleting none (Except.error Scenario.notFound) none)
    Scenario.request Scenario.start Scenario.deleting () rfl (by decide) (by decide) (by decide)
    rfl).1

end cleanup

/-! ## The calls of the status back-propagation and of the LoadBalancer diff-and-apply -/

section applycalls
variable {σ : Type}

theorem Reconcile.statusAttempt_calls (r : KubeLBServiceReconciler σ) (key : NamespacedName)
    (actualLB : kubelbk8ciov1alpha1.LoadBalancer) (s : corev1.Service × Run σ) :
    ∃ issued, (Reconcile.statusAttempt r key actualLB s).2.2.calls = s.2.calls ++ issued
      ∧ ∀ c ∈ issued, c.isStatusSyncCall = true := by
  unfold Reconcile.statusAttempt
  simp only [ServiceClient.get]
  cases hg : (r.Client.Get s.2.world key).1 with
  | error e =>
    exact ⟨[Call.GetService key], by simp [Call.isStatusSyncCall]⟩
  | ok fetched =>
    simp only [ServiceClient.statusUpdate]
    cases hu : (r.Client.StatusUpdate (r.Client.Get s.2.world key).2
        { fetched with
          Status := { fetched.Status with LoadBalancer := actualLB.Status.LoadBalancer } }).1 with
    | error e =>
      exact ⟨[Call.GetService key, Call.UpdateServiceStatus
          { fetched with
            Status := { fetched.Status with LoadBalancer := actualLB.Status.LoadBalancer } }],
        by simp [Call.isStatusSyncCall]⟩
    | ok updated =>
      exact ⟨[Call.GetService key, Call.UpdateServiceStatus
          { fetched with
            Status := { fetched.Status with LoadBalancer := actualLB.Status.LoadBalancer } }],
        by simp [Call.isStatusSyncCall]⟩

theorem Reconcile.retry_statusAttempt_calls (r : KubeLBServiceReconciler σ)
    (key : NamespacedName) (actualLB : kubelbk8ciov1alpha1.LoadBalancer) (n : Nat) :
    ∀ (s : corev1.Service × Run σ) (lastErr : Option Err),
      ∃ issued,
        (RetryOnConflict n (Reconcile.statusAttempt r key actualLB) s lastErr).2.2.calls
            = s.2.calls ++ issued
          ∧ ∀ c ∈ issued, c.isStatusSyncCall = true := by
  induction n with
  | zero =>
    intro s lastErr
    exact ⟨[], by simp [RetryOnConflict]⟩
  | succ n ih =>
    intro s lastErr
    obtain ⟨i1, h1, h1c⟩ := Reconcile.statusAttempt_calls r key actualLB s
    unfold RetryOnConflict
    rcases hfn : Reconcile.statusAttempt r key actualLB s with ⟨res, s1⟩
    rw [hfn] at h1
    cases res with
    | none => exact ⟨i1, by simpa using h1, h1c⟩
    | some e =>
      by_cases hc : IsConflict (some e) = true
      · obtain ⟨i2, h2, h2c⟩ := ih s1 (some e)
        refine ⟨i1 ++ i2, ?_, ?_⟩
        · simp only [hc, if_true]
          rw [h2]
          simp only [] at h1
          rw [h1, List.append_assoc]
        · intro c hcm
          rcases List.mem_append.1 hcm with hm | hm
          · exact h1c c hm
          · exact h2c c hm
      · exact ⟨i1, by simpa [hc] using h1, h1c⟩

theorem Reconcile.syncStatus_calls (r : KubeLBServiceReconciler σ) (service : corev1.Service)
    (actualLB : kubelbk8ciov1alpha1.LoadBalancer) (w : Run σ) :
    ∃ issued, (Reconcile.syncStatus r service actualLB w).2.calls = w.calls ++ issued
      ∧ ∀ c ∈ issued, c.isStatusSyncCall = true := by
  unfold Reconcile.syncStatus
  split
  · exact ⟨[], by simp⟩
  · split
    · obtain ⟨i, h, hc⟩ := Reconcile.retry_statusAttempt_calls r
        (ObjectKeyFromObject service.ObjectMeta) actualLB DefaultRetrySteps (service, w) none
      rcases hr : RetryOnConflict DefaultRetrySteps
          (Reconcile.statusAttempt r (ObjectKeyFromObject service.ObjectMeta) actualLB)
          (service, w) none with ⟨res, s1, w1⟩
      rw [hr] at h
      cases res with
      | none => exact ⟨i, by simpa using h, hc⟩
      | some e => exact ⟨i, by simpa using h, hc⟩
    · exact ⟨[], by simp⟩

theorem Call.isUpdateService_of_isStatusSyncCall (c : Call)
    (h : c.isStatusSyncCall = true) : c.isUpdateService = false := by
  cases c <;> simp [Call.isStatusSyncCall, Call.isUpdateService] at h ⊢

theorem Call.isLoadBalancerCall_of_isStatusSyncCall (c : Call)
    (h : c.isStatusSyncCall = true) : c.isLoadBalancerCall = false := by
  cases c <;> simp [Call.isStatusSyncCall, Call.isLoadBalancerCall] at h ⊢

/-- The LoadBalancer stage when the fetch fails: a NotFound leads to one create of the desired
object, any other error is returned at once. -/
theorem Reconcile.applyLoadBalancer_of_get_error (k : KubelbPackage)
    (r : KubeLBServiceReconciler σ) (service : corev1.Service)
    (desiredLB : kubelbk8ciov1alpha1.LoadBalancer) (w : Run σ) (err : Err)
    (hget : (r.KubeLBManager.Get w.world (ObjectKeyFromObject desiredLB.ObjectMeta)).1
      = Except.error err) :
    Reconcile.applyLoadBalancer k r service desiredLB w =
      if IsNotFound (some err) = true then
        (({}, (r.KubeLBManager.Create
            (r.KubeLBManager.Get w.world (ObjectKeyFromObject desiredLB.ObjectMeta)).2
            desiredLB).1),
          ⟨(r.KubeLBManager.Create
              (r.KubeLBManager.Get w.world (ObjectKeyFromObject desiredLB.ObjectMeta)).2
              desiredLB).2,
            w.calls ++
              [Call.GetLoadBalancer (ObjectKeyFromObject desiredLB.ObjectMeta),
                Call.CreateLoadBalancer desiredLB]⟩)
      else
        (({}, some err),
          ⟨(r.KubeLBManager.Get w.world (ObjectKeyFromObject desiredLB.ObjectMeta)).2,
            w.calls ++ [Call.GetLoadBalancer (ObjectKeyFromObject desiredLB.ObjectMeta)]⟩) := by
  unfold Reconcile.applyLoadBalancer
  simp only [LoadBalancerClient.get, hget, LoadBalancerClient.create]
  cases hnf : IsNotFound (some err) <;> simp

/-- The LoadBalancer stage when the fetch succeeds: the status back-propagation runs, and unless
it fails and unless the fetched object is in the desired state, one update follows, of the
fetched object with `Spec` and `Annotations` taken from the desired one. -/
theorem Reconcile.applyLoadBalancer_of_found (k : KubelbPackage)
    (r : KubeLBServiceReconciler σ) (service : corev1.Service)
    (desiredLB : kubelbk8ciov1alpha1.LoadBalancer) (w : Run σ)
    (actualLB : kubelbk8ciov1alpha1.LoadBalancer)
    (hget : (r.KubeLBManager.Get w.world (ObjectKeyFromObject desiredLB.ObjectMeta)).1
      = Except.ok actualLB) :
    ∃ (res : Option Err) (w2 : Run σ) (statusIssued : List Call),
      Reconcile.syncStatus r service actualLB
          ⟨(r.KubeLBManager.Get w.world (ObjectKeyFromObject desiredLB.ObjectMeta)).2,
            w.calls ++ [Call.GetLoadBalancer (ObjectKeyFromObject desiredLB.ObjectMeta)]⟩
        = (res, w2)
      ∧ w2.calls = w.calls ++
          Call.GetLoadBalancer (ObjectKeyFromObject desiredLB.ObjectMeta) :: statusIssued
      ∧ (∀ c ∈ statusIssued, c.isStatusSyncCall = true)
      ∧ Reconcile.applyLoadBalancer k r service desiredLB w =
          match res with
          | some e => (({}, some e), w2)
          | none =>
            if k.LoadBalancerIsDesiredState actualLB desiredLB = true then
              (({}, none), w2)
            else
              (({}, (r.KubeLBManager.Update w2.world
                  (Reconcile.mergeLoadBalancer actualLB desiredLB)).1),
                ⟨(r.KubeLBManager.Update w2.world
                    (Reconcile.mergeLoadBalancer actualLB desiredLB)).2,
                  w2.calls ++
                    [Call.UpdateLoadBalancer
                      (Reconcile.mergeLoadBalancer actualLB desiredLB)]⟩) := by
  obtain ⟨issued, hiss, hc⟩ := Reconcile.syncStatus_calls r service actualLB
    ⟨(r.KubeLBManager.Get w.world (ObjectKeyFromObject desiredLB.ObjectMeta)).2,
      w.calls ++ [Call.GetLoadBalancer (ObjectKeyFromObject desiredLB.ObjectMeta)]⟩
  rcases hs : Reconcile.syncStatus r service actualLB
    ⟨(r.KubeLBManager.Get w.world (ObjectKeyFromObject desiredLB.ObjectMeta)).2,
      w.calls ++ [Call.GetLoadBalancer (ObjectKeyFromObject desiredLB.ObjectMeta)]⟩
    with ⟨res, w2⟩
  rw [hs] at hiss
  refine ⟨res, w2, issued, rfl, by simpa using hiss, hc, ?_⟩
  unfold Reconcile.applyLoadBalancer
  simp only [LoadBalancerClient.get, hget, hs, LoadBalancerClient.update]
  cases res with
  | some e => rfl
  | none =>
    cases hd : k.LoadBalancerIsDesiredState actualLB desiredLB <;> simp

/-- Every run of the LoadBalancer stage only appends calls, none of them a Service update. -/
theorem Reconcile.applyLoadBalancer_calls (k : KubelbPackage)
    (r : KubeLBServiceReconciler σ) (service : corev1.Service)
    (desiredLB : kubelbk8ciov1alpha1.LoadBalancer) (w : Run σ) :
    ∃ issued, (Reconcile.applyLoadBalancer k r service desiredLB w).2.calls = w.calls ++ issued
      ∧ ∀ c ∈ issued, c.isUpdateService = false := by
  cases hget : (r.KubeLBManager.Get w.world (ObjectKeyFromObject desiredLB.ObjectMeta)).1 with
  | error err =>
    rw [Reconcile.applyLoadBalancer_of_get_error k r service desiredLB w err hget]
    cases hnf : IsNotFound (some err)
    · exact ⟨[Call.GetLoadBalancer (ObjectKeyFromObject desiredLB.ObjectMeta)], by simp,
        by simp [Call.isUpdateService]⟩
    · exact ⟨[Call.GetLoadBalancer (ObjectKeyFromObject desiredLB.ObjectMeta),
          Call.CreateLoadBalancer desiredLB], by simp, by simp [Call.isUpdateService]⟩
  | ok actualLB =>
    obtain ⟨res, w2, si, _, hw2, hsi, happ⟩ :=
      Reconcile.applyLoadBalancer_of_found k r service desiredLB w actualLB hget
    have hsi2 : ∀ c ∈ si, c.isUpdateService = false :=
      fun c hc => Call.isUpdateService_of_isStatusSyncCall c (hsi c hc)
    have hbase : ∀ c ∈ Call.GetLoadBalancer (ObjectKeyFromObject desiredLB.ObjectMeta) :: si,
        c.isUpdateService = false := by
      intro c hc
      rcases List.mem_cons.1 hc with h | h
      · simp [h, Call.isUpdateService]
      · exact hsi2 c h
    rw [happ]
    cases res with
    | some e => exact ⟨_, hw2, hbase⟩
    | none =>
      cases hd : k.LoadBalancerIsDesiredState actualLB desiredLB
      · refine ⟨(Call.GetLoadBalancer (ObjectKeyFromObject desiredLB.ObjectMeta) :: si)
            ++ [Call.UpdateLoadBalancer (Reconcile.mergeLoadBalancer actualLB desiredLB)],
          ?_, ?_⟩
        · simp [hw2]
        · intro c hc
          rcases List.mem_append.1 hc with h | h
          · exact hbase c h
          · simp at h
            simp [h, Call.isUpdateService]
      · exact ⟨_, by simpa using hw2, hbase⟩

end applycalls

/-! ## The finalizer lifecycle: registration -/

section register
variable {σ : Type}

/-- `Reconcile` on an admitted Service that is not being deleted. -/
theorem Reconcile_of_admitted_live (k : KubelbPackage) (r : KubeLBServiceReconciler σ)
    (req : Request) (w : Run σ) (service : corev1.Service) (st1 : σ)
    (hget : r.Client.Get w.world req.NamespacedName = (Except.ok service, st1))
    (hadm : Reconcile.notAdmitted r service = false)
    (hdts : DeletionTimestampIsZero service.ObjectMeta.DeletionTimestamp = true) :
    r.Reconcile k req w =
      match Reconcile.setFinalizer r service
          ⟨st1, w.calls ++ [Call.GetService req.NamespacedName]⟩ with
      | (Except.error err, w1) => (({}, some err), w1)
      | (Except.ok service1, w1) =>
        Reconcile.applyLoadBalancer k r service1
          (k.MapLoadBalancer service1 (r.getEndpoints service) r.ClusterName) w1 := by
  simp [KubeLBServiceReconciler.Reconcile, ServiceClient.get, hget, hadm, Reconcile.admitted,
    hdts]

/-- C7: for every admitted Service without a deletion timestamp: if the lb-finalizer token is
absent from its finalizers, the first call `Reconcile` issues after reading the Service is a
Service update whose finalizer list is the old list with the token appended once at the end,
ahead of every management-cluster call, and it is the only Service update; if that update
fails, `Reconcile` returns its error having issued no LoadBalancer get, create or update. If the
token is already present, `Reconcile` issues no Service update and goes on with the Service, and
so its finalizer list, unchanged. -/
theorem Reconcile_registers_finalizer (k : KubelbPackage) (r : KubeLBServiceReconciler σ)
    (req : Request) (w : Run σ) (service : corev1.Service) (st1 : σ)
    (hget : r.Client.Get w.world req.NamespacedName = (Except.ok service, st1))
    (hadm : Reconcile.notAdmitted r service = false)
    (hdts : DeletionTimestampIsZero service.ObjectMeta.DeletionTimestamp = true) :
    (ContainsString service.ObjectMeta.Finalizers LBFinalizerName = false →
      (∃ rest, (r.Reconcile k req w).2.calls = w.calls ++
            Call.GetService req.NamespacedName
              :: Call.UpdateService
                  { service with
                    ObjectMeta :=
                      { service.ObjectMeta with
                        Finalizers := service.ObjectMeta.Finalizers.append LBFinalizerName } }
              :: rest
          ∧ ∀ c ∈ rest, c.isUpdateService = false)
      ∧ (service.ObjectMeta.Finalizers.append LBFinalizerName).toList
          = service.ObjectMeta.Finalizers.toList ++ [LBFinalizerName]
      ∧ (service.ObjectMeta.Finalizers.append LBFinalizerName).toList.count LBFinalizerName = 1
      ∧ (∀ e : Err,
          (r.Client.Update st1
            { service with
              ObjectMeta :=
                { service.ObjectMeta with
                  Finalizers := service.ObjectMeta.Finalizers.append LBFinalizerName } }).1
            = Except.error e →
          r.Reconcile k req w =
            (({}, some e),
              ⟨(r.Client.Update st1
                  { service with
                    ObjectMeta :=
                      { service.ObjectMeta with
                        Finalizers :=
                          service.ObjectMeta.Finalizers.append LBFinalizerName } }).2,
                w.calls ++
                  [Call.GetService req.NamespacedName,
                    Call.UpdateService
                      { service with
                        ObjectMeta :=
                          { service.ObjectMeta with
                            Finalizers :=
                              service.ObjectMeta.Finalizers.append LBFinalizerName } }]⟩)))
    ∧ (ContainsString service.ObjectMeta.Finalizers LBFinalizerName = true →
        (∃ issued, (r.Reconcile k req w).2.calls = w.calls ++ issued
          ∧ ∀ c ∈ issued, c.isUpdateService = false)
        ∧ Reconcile.setFinalizer r service ⟨st1, w.calls ++ [Call.GetService req.NamespacedName]⟩
            = (Except.ok service, ⟨st1, w.calls ++ [Call.GetService req.NamespacedName]⟩)) := by
  have hrec := Reconcile_of_admitted_live k r req w service st1 hget hadm hdts
  refine ⟨?_, ?_⟩
  · intro habs
    have hset : Reconcile.setFinalizer r service
          ⟨st1, w.calls ++ [Call.GetService req.NamespacedName]⟩
        = r.Client.update
            { service with
              ObjectMeta :=
                { service.ObjectMeta with
                  Finalizers := service.ObjectMeta.Finalizers.append LBFinalizerName } }
            ⟨st1, w.calls ++ [Call.GetService req.NamespacedName]⟩ := by
      simp [Reconcile.setFinalizer, habs]
    rw [hset] at hrec
    simp only [ServiceClient.update] at hrec
    refine ⟨?_, Slice.toList_append _ _, ?_, ?_⟩
    · cases hupd : (r.Client.Update st1
          { service with
            ObjectMeta :=
              { service.ObjectMeta with
                Finalizers := service.ObjectMeta.Finalizers.append LBFinalizerName } }).1 with
      | error e =>
        rw [hupd] at hrec
        refine ⟨[], ?_, by simp⟩
        rw [hrec]
        simp
      | ok service1 =>
        rw [hupd] at hrec
        simp only [] at hrec
        obtain ⟨issued, hiss, hc⟩ := Reconcile.applyLoadBalancer_calls k r service1
          (k.MapLoadBalancer service1 (r.getEndpoints service) r.ClusterName)
          ⟨(r.Client.Update st1
              { service with
                ObjectMeta :=
                  { service.ObjectMeta with
                    Finalizers := service.ObjectMeta.Finalizers.append LBFinalizerName } }).2,
            w.calls ++ [Call.GetService req.NamespacedName] ++
              [Call.UpdateService
                { service with
                  ObjectMeta :=
                    { service.ObjectMeta with
                      Finalizers := service.ObjectMeta.Finalizers.append LBFinalizerName } }]⟩
        refine ⟨issued, ?_, hc⟩
        rw [hrec, hiss]
        simp
    · have hnot : LBFinalizerName ∉ service.ObjectMeta.Finalizers.toList := by
        intro hmem
        have := (ContainsString_iff _ _).2 hmem
        rw [habs] at this
        exact Bool.false_ne_true this
      rw [Slice.toList_append, List.count_append, List.count_eq_zero_of_not_mem hnot]
      simp
    · intro e he
      rw [he] at hrec
      rw [hrec]
      simp
  · intro hpres
    have hset : Reconcile.setFinalizer r service
          ⟨st1, w.calls ++ [Call.GetService req.NamespacedName]⟩
        = (Except.ok service, ⟨st1, w.calls ++ [Call.GetService req.NamespacedName]⟩) := by
      simp [Reconcile.setFinalizer, hpres]
    refine ⟨?_, hset⟩
    rw [hset] at hrec
    simp only [] at hrec
    obtain ⟨issued, hiss, hc⟩ := Reconcile.applyLoadBalancer_calls k r service
      (k.MapLoadBalancer service (r.getEndpoints service) r.ClusterName)
      ⟨st1, w.calls ++ [Call.GetService req.NamespacedName]⟩
    refine ⟨Call.GetService req.NamespacedName :: issued, ?_, ?_⟩
    · rw [hrec, hiss]
      simp
    · intro c hcm
      rcases List.mem_cons.1 hcm with h | h
      · simp [h, Call.isUpdateService]
      · exact hc c h

theorem Reconcile_registers_finalizer_witness :
    (Scenario.reconciler Scenario.service (some Scenario.serverError)
        (Except.error Scenario.notFound) none).Reconcile Scenario.pkg Scenario.request
        Scenario.start
      = (({}, some Scenario.serverError),
          ⟨(), [] ++ [Call.GetService Scenario.request.NamespacedName,
            Call.UpdateService
              { Scenario.service with
                ObjectMeta :=
                  { Scenario.service.ObjectMeta with
                    Finalizers :=
                      Scenario.service.ObjectMeta.Finalizers.append LBFinalizerName } }]⟩) :=
  ((Reconcile_registers_finalizer Scenario.pkg
      (Scenario.reconciler Scenario.service (some Scenario.serverError)
        (Except.error Scenario.notFound) none)
      Scenario.request Scenario.start Scenario.service () rfl (by decide) (by decide)).1
    (by decide)).2.2.2 Scenario.serverError rfl

end register

/-! ## Diff-and-apply: the fetch fails -/

section fetchfails
variable {σ : Type}

/-- C8: for each managed kind (Service in `reconcileService`, Endpoints in `reconcileEndpoints`,
LoadBalancer in `Reconcile`), the actual object is fetched by the desired object's name and
namespace; when the fetch reports NotFound the code issues one create of the desired object as
it is, no update, and returns the create's result; when the fetch fails with any other error
that error is returned and neither a create nor an update is issued. -/
theorem reconcile_fetch_error (k : KubelbPackage) (r : KubeLBServiceReconciler σ)
    (g : GlobalLoadBalancerReconciler σ) (req : Request) (w w2 : Run σ)
    (service service1 : corev1.Service) (st1 : σ) (desiredService : corev1.Service)
    (desiredEndpoints : corev1.Endpoints) (err : Err) :
    ((g.Services.Get w.world
          { Name := desiredService.ObjectMeta.Name
            Namespace := desiredService.ObjectMeta.Namespace }).1 = Except.error err →
      (IsNotFound (some err) = true →
        g.reconcileService desiredService w =
          ((g.Services.Create
              (g.Services.Get w.world
                { Name := desiredService.ObjectMeta.Name
                  Namespace := desiredService.ObjectMeta.Namespace }).2 desiredService).1,
            ⟨(g.Services.Create
                (g.Services.Get w.world
                  { Name := desiredService.ObjectMeta.Name
                    Namespace := desiredService.ObjectMeta.Namespace }).2 desiredService).2,
              w.calls ++
                [Call.GetService
                    { Name := desiredService.ObjectMeta.Name
                      Namespace := desiredService.ObjectMeta.Namespace },
                  Call.CreateService desiredService]⟩))
      ∧ (IsNotFound (some err) = false →
        g.reconcileService desiredService w =
          (some err,
            ⟨(g.Services.Get w.world
                { Name := desiredService.ObjectMeta.Name
                  Namespace := desiredService.ObjectMeta.Namespace }).2,
              w.calls ++
                [Call.GetService
                  { Name := desiredService.ObjectMeta.Name
                    Namespace := desiredService.ObjectMeta.Namespace }]⟩)))
    ∧ ((g.Endpoints.Get w.world
          { Name := desiredEndpoints.ObjectMeta.Name
            Namespace := desiredEndpoints.ObjectMeta.Namespace }).1 = Except.error err →
      (IsNotFound (some err) = true →
        g.reconcileEndpoints desiredEndpoints w =
          ((g.Endpoints.Create
              (g.Endpoints.Get w.world
                { Name := desiredEndpoints.ObjectMeta.Name
                  Namespace := desiredEndpoints.ObjectMeta.Namespace }).2 desiredEndpoints).1,
            ⟨(g.Endpoints.Create
                (g.Endpoints.Get w.world
                  { Name := desiredEndpoints.ObjectMeta.Name
                    Namespace := desiredEndpoints.ObjectMeta.Namespace }).2 desiredEndpoints).2,
              w.calls ++
                [Call.GetEndpoints
                    { Name := desiredEndpoints.ObjectMeta.Name
                      Namespace := desiredEndpoints.ObjectMeta.Namespace },
                  Call.CreateEndpoints desiredEndpoints]⟩))
      ∧ (IsNotFound (some err) = false →
        g.reconcileEndpoints desiredEndpoints w =
          (some err,
            ⟨(g.Endpoints.Get w.world
                { Name := desiredEndpoints.ObjectMeta.Name
                  Namespace := desiredEndpoints.ObjectMeta.Namespace }).2,
              w.calls ++
                [Call.GetEndpoints
                  { Name := desiredEndpoints.ObjectMeta.Name
                    Namespace := desiredEndpoints.ObjectMeta.Namespace }]⟩)))
    ∧ (r.Client.Get w.world req.NamespacedName = (Except.ok service, st1) →
      Reconcile.notAdmitted r service = false →
      DeletionTimestampIsZero service.ObjectMeta.DeletionTimestamp = true →
      Reconcile.setFinalizer r service ⟨st1, w.calls ++ [Call.GetService req.NamespacedName]⟩
        = (Except.ok service1, w2) →
      (r.KubeLBManager.Get w2.world
          (ObjectKeyFromObject
            (k.MapLoadBalancer service1 (r.getEndpoints service) r.ClusterName).ObjectMeta)).1
        = Except.error err →
      (IsNotFound (some err) = true →
        r.Reconcile k req w =
          (({}, (r.KubeLBManager.Create
              (r.KubeLBManager.Get w2.world
                (ObjectKeyFromObject
                  (k.MapLoadBalancer service1 (r.getEndpoints service)
                    r.ClusterName).ObjectMeta)).2
              (k.MapLoadBalancer service1 (r.getEndpoints service) r.ClusterName)).1),
            ⟨(r.KubeLBManager.Create
                (r.KubeLBManager.Get w2.world
                  (ObjectKeyFromObject
                    (k.MapLoadBalancer service1 (r.getEndpoints service)
                      r.ClusterName).ObjectMeta)).2
                (k.MapLoadBalancer service1 (r.getEndpoints service) r.ClusterName)).2,
              w2.calls ++
                [Call.GetLoadBalancer
                    (ObjectKeyFromObject
                      (k.MapLoadBalancer service1 (r.getEndpoints service)
                        r.ClusterName).ObjectMeta),
                  Call.CreateLoadBalancer
                    (k.MapLoadBalancer service1 (r.getEndpoints service) r.ClusterName)]⟩))
      ∧ (IsNotFound (some err) = false →
        r.Reconcile k req w =
          (({}, some err),
            ⟨(r.KubeLBManager.Get w2.world
                (ObjectKeyFromObject
                  (k.MapLoadBalancer service1 (r.getEndpoints service)
                    r.ClusterName).ObjectMeta)).2,
              w2.calls ++
                [Call.GetLoadBalancer
                  (ObjectKeyFromObject
                    (k.MapLoadBalancer service1 (r.getEndpoints service)
                      r.ClusterName).ObjectMeta)]⟩))) := by
  refine ⟨?_, ?_, ?_⟩
  · intro hget
    constructor
    · intro hnf
      simp [GlobalLoadBalancerReconciler.reconcileService, ServiceClient.get, hget, hnf,
        ServiceClient.create]
    · intro hnf
      simp [GlobalLoadBalancerReconciler.reconcileService, ServiceClient.get, hget, hnf]
  · intro hget
    constructor
    · intro hnf
      simp [GlobalLoadBalancerReconciler.reconcileEndpoints, EndpointsClient.get, hget, hnf,
        EndpointsClient.create]
    · intro hnf
      simp [GlobalLoadBalancerReconciler.reconcileEndpoints, EndpointsClient.get, hget, hnf]
  · intro hget hadm hdts hset hlb
    have hrec := Reconcile_of_admitted_live k r req w service st1 hget hadm hdts
    rw [hset] at hrec
    simp only [] at hrec
    rw [Reconcile.applyLoadBalancer_of_get_error k r service1 _ w2 err hlb] at hrec
    constructor
    · intro hnf
      rw [hrec]
      simp [hnf]
    · intro hnf
      rw [hrec]
      simp [hnf]

theorem reconcile_fetch_error_witness :
    (Scenario.manager (Except.error Scenario.notFound) (Except.error Scenario.serverError)
        none).reconcileService Scenario.desiredService Scenario.start
      = (none,
          ⟨(), [] ++ [Call.GetService { Name := "glb", Namespace := "default" },
            Call.CreateService Scenario.desiredService]⟩)
    ∧ (Scenario.manager (Except.error Scenario.notFound) (Except.error Scenario.serverError)
        none).reconcileEndpoints Scenario.desiredEndpoints Scenario.start
      = (some Scenario.serverError,
          ⟨(), [] ++ [Call.GetEndpoints { Name := "glb", Namespace := "default" }]⟩)
    ∧ (Scenario.reconciler Scenario.registered none (Except.error Scenario.notFound)
        none).Reconcile Scenario.pkg Scenario.request Scenario.start
      = (({}, none),
          ⟨(), ([] ++ [Call.GetService Scenario.request.NamespacedName]) ++
            [Call.GetLoadBalancer { Namespace := "tenant-a", Name := "abc-123" },
              Call.CreateLoadBalancer Scenario.desiredLB]⟩) :=
  ⟨((reconcile_fetch_error Scenario.pkg
        (Scenario.reconciler Scenario.registered none (Except.error Scenario.notFound) none)
        (Scenario.manager (Except.error Scenario.notFound) (Except.error Scenario.serverError)
          none)
        Scenario.request Scenario.start
        ⟨(), [] ++ [Call.GetService Scenario.request.NamespacedName]⟩
        Scenario.registered Scenario.registered () Scenario.desiredService
        Scenario.desiredEndpoints Scenario.notFound).1 rfl).1 (by decide),
    ((reconcile_fetch_error Scenario.pkg
        (Scenario.reconciler Scenario.registered none (Except.error Scenario.notFound) none)
        (Scenario.manager (Except.error Scenario.notFound) (Except.error Scenario.serverError)
          none)
        Scenario.request Scenario.start
        ⟨(), [] ++ [Call.GetService Scenario.request.NamespacedName]⟩
        Scenario.registered Scenario.registered () Scenario.desiredService
        Scenario.desiredEndpoints Scenario.serverError).2.1 rfl).2 (by decide),
    ((reconcile_fetch_error Scenario.pkg
        (Scenario.reconciler Scenario.registered none (Except.error Scenario.notFound) none)
        (Scenario.manager (Except.error Scenario.notFound) (Except.error Scenario.serverError)
          none)
        Scenario.request Scenario.start
        ⟨(), [] ++ [Call.GetService Scenario.request.NamespacedName]⟩
        Scenario.registered Scenario.registered () Scenario.desiredService
        Scenario.desiredEndpoints Scenario.notFound).2.2 rfl (by decide) (by decide) rfl rfl).1
      (by decide)⟩

end fetchfails

/-! ## Diff-and-apply: the fetched object differs -/

section merge
variable {σ : Type}

/-- C9: for each managed kind, when the actual object is found and differs from the desired one
in its mutable fields, the one update issued carries the fetched object with exactly the kind's
mutable fields taken from the desired object (Service: `Spec.Ports`; Endpoints: `Subsets`;
LoadBalancer: `Spec` and `Annotations`) and every other field of the fetched object (name,
namespace, UID, resourceVersion, labels, finalizers, status, the Service's type and cluster IP)
as fetched; so what is sent is the fetched object, never the desired one: it differs
from the desired object wherever the fetched one does outside the mutable fields. For the
LoadBalancer the update is issued once the status back-propagation has not failed, and no
LoadBalancer write is issued otherwise. -/
theorem reconcile_update_merges (k : KubelbPackage) (r : KubeLBServiceReconciler σ)
    (g : GlobalLoadBalancerReconciler σ) (req : Request) (w w2 : Run σ)
    (service service1 : corev1.Service) (st1 : σ)
    (desiredService actualService : corev1.Service)
    (desiredEndpoints actualEndpoints : corev1.Endpoints)
    (actualLB : kubelbk8ciov1alpha1.LoadBalancer) :
    ((g.Services.Get w.world
          { Name := desiredService.ObjectMeta.Name
            Namespace := desiredService.ObjectMeta.Namespace }).1 = Except.ok actualService →
      desiredService.Spec.Ports ≠ actualService.Spec.Ports →
      (g.reconcileService desiredService w).2.calls = w.calls ++
          [Call.GetService
              { Name := desiredService.ObjectMeta.Name
                Namespace := desiredService.ObjectMeta.Namespace },
            Call.UpdateService
              { actualService with
                Spec := { actualService.Spec with Ports := desiredService.Spec.Ports } }]
        ∧ ({ actualService with
              Spec := { actualService.Spec with Ports := desiredService.Spec.Ports } }
            : corev1.Service)
          = { ObjectMeta := actualService.ObjectMeta
              Spec :=
                { Ports := desiredService.Spec.Ports
                  ClusterIP := actualService.Spec.ClusterIP
                  Type_ := actualService.Spec.Type_ }
              Status := actualService.Status }
        ∧ ((desiredService.ObjectMeta ≠ actualService.ObjectMeta
              ∨ desiredService.Spec.ClusterIP ≠ actualService.Spec.ClusterIP
              ∨ desiredService.Spec.Type_ ≠ actualService.Spec.Type_
              ∨ desiredService.Status ≠ actualService.Status) →
            ({ actualService with
                Spec := { actualService.Spec with Ports := desiredService.Spec.Ports } }
              : corev1.Service) ≠ desiredService))
    ∧ ((g.Endpoints.Get w.world
          { Name := desiredEndpoints.ObjectMeta.Name
            Namespace := desiredEndpoints.ObjectMeta.Namespace }).1 = Except.ok actualEndpoints →
      desiredEndpoints.Subsets ≠ actualEndpoints.Subsets →
      (g.reconcileEndpoints desiredEndpoints w).2.calls = w.calls ++
          [Call.GetEndpoints
              { Name := desiredEndpoints.ObjectMeta.Name
                Namespace := desiredEndpoints.ObjectMeta.Namespace },
            Call.UpdateEndpoints { actualEndpoints with Subsets := desiredEndpoints.Subsets }]
        ∧ ({ actualEndpoints with Subsets := desiredEndpoints.Subsets } : corev1.Endpoints)
          = { ObjectMeta := actualEndpoints.ObjectMeta, Subsets := desiredEndpoints.Subsets }
        ∧ (desiredEndpoints.ObjectMeta ≠ actualEndpoints.ObjectMeta →
            ({ actualEndpoints with Subsets := desiredEndpoints.Subsets } : corev1.Endpoints)
              ≠ desiredEndpoints))
    ∧ (r.Client.Get w.world req.NamespacedName = (Except.ok service, st1) →
      Reconcile.notAdmitted r service = false →
      DeletionTimestampIsZero service.ObjectMeta.DeletionTimestamp = true →
      Reconcile.setFinalizer r service ⟨st1, w.calls ++ [Call.GetService req.NamespacedName]⟩
        = (Except.ok service1, w2) →
      (r.KubeLBManager.Get w2.world
          (ObjectKeyFromObject
            (k.MapLoadBalancer service1 (r.getEndpoints service) r.ClusterName).ObjectMeta)).1
        = Except.ok actualLB →
      k.LoadBalancerIsDesiredState actualLB
        (k.MapLoadBalancer service1 (r.getEndpoints service) r.ClusterName) = false →
      (∃ (res : Option Err) (w3 : Run σ) (statusIssued : List Call),
        Reconcile.syncStatus r service1 actualLB
            ⟨(r.KubeLBManager.Get w2.world
                (ObjectKeyFromObject
                  (k.MapLoadBalancer service1 (r.getEndpoints service)
                    r.ClusterName).ObjectMeta)).2,
              w2.calls ++
                [Call.GetLoadBalancer
                  (ObjectKeyFromObject
                    (k.MapLoadBalancer service1 (r.getEndpoints service)
                      r.ClusterName).ObjectMeta)]⟩
          = (res, w3)
        ∧ (∀ c ∈ statusIssued, c.isStatusSyncCall = true ∧ c.isLoadBalancerCall = false)
        ∧ (res = none →
            (r.Reconcile k req w).2.calls = w2.calls ++
              Call.GetLoadBalancer
                  (ObjectKeyFromObject
                    (k.MapLoadBalancer service1 (r.getEndpoints service)
                      r.ClusterName).ObjectMeta)
                :: statusIssued ++
              [Call.UpdateLoadBalancer
                (Reconcile.mergeLoadBalancer actualLB
                  (k.MapLoadBalancer service1 (r.getEndpoints service) r.ClusterName))])
        ∧ (res ≠ none →
            (r.Reconcile k req w).2.calls = w2.calls ++
              Call.GetLoadBalancer
                  (ObjectKeyFromObject
                    (k.MapLoadBalancer service1 (r.getEndpoints service)
                      r.ClusterName).ObjectMeta)
                :: statusIssued))
      ∧ Reconcile.mergeLoadBalancer actualLB
          (k.MapLoadBalancer service1 (r.getEndpoints service) r.ClusterName)
        = { ObjectMeta :=
              { Name := actualLB.ObjectMeta.Name
                Namespace := actualLB.ObjectMeta.Namespace
                UID := actualLB.ObjectMeta.UID
                ResourceVersion := actualLB.ObjectMeta.ResourceVersion
                Labels := actualLB.ObjectMeta.Labels
                Annotations :=
                  (k.MapLoadBalancer service1 (r.getEndpoints service)
                    r.ClusterName).ObjectMeta.Annotations
                Finalizers := actualLB.ObjectMeta.Finalizers
                DeletionTimestamp := actualLB.ObjectMeta.DeletionTimestamp }
            Spec := (k.MapLoadBalancer service1 (r.getEndpoints service) r.ClusterName).Spec
            Status := actualLB.Status }
      ∧ (((k.MapLoadBalancer service1 (r.getEndpoints service) r.ClusterName).ObjectMeta.UID
              ≠ actualLB.ObjectMeta.UID
            ∨ (k.MapLoadBalancer service1 (r.getEndpoints service)
                r.ClusterName).ObjectMeta.ResourceVersion ≠ actualLB.ObjectMeta.ResourceVersion
            ∨ (k.MapLoadBalancer service1 (r.getEndpoints service)
                r.ClusterName).ObjectMeta.Labels ≠ actualLB.ObjectMeta.Labels
            ∨ (k.MapLoadBalancer service1 (r.getEndpoints service) r.ClusterName).Status
              ≠ actualLB.Status) →
          Reconcile.mergeLoadBalancer actualLB
              (k.MapLoadBalancer service1 (r.getEndpoints service) r.ClusterName)
            ≠ k.MapLoadBalancer service1 (r.getEndpoints service) r.ClusterName)) := by
  refine ⟨?_, ?_, ?_⟩
  · intro hget hne
    refine ⟨?_, rfl, ?_⟩
    · simp only [GlobalLoadBalancerReconciler.reconcileService, ServiceClient.get, hget,
        ServiceClient.update]
      cases hu : (g.Services.Update
        (g.Services.Get w.world
          { Name := desiredService.ObjectMeta.Name
            Namespace := desiredService.ObjectMeta.Namespace }).2
        { actualService with
          Spec := { actualService.Spec with Ports := desiredService.Spec.Ports } }).1 <;>
        simp [hne]
    · intro hdiff heq
      rw [← heq] at hdiff
      simp at hdiff
  · intro hget hne
    refine ⟨?_, rfl, ?_⟩
    · simp [GlobalLoadBalancerReconciler.reconcileEndpoints, EndpointsClient.get, hget,
        EndpointsClient.update, hne]
    · intro hdiff heq
      rw [← heq] at hdiff
      simp at hdiff
  · intro hget hadm hdts hset hlb hnd
    have hrec := Reconcile_of_admitted_live k r req w service st1 hget hadm hdts
    rw [hset] at hrec
    simp only [] at hrec
    obtain ⟨res, w3, si, hsync, hw3, hsi, happ⟩ :=
      Reconcile.applyLoadBalancer_of_found k r service1 _ w2 actualLB hlb
    rw [happ] at hrec
    refine ⟨⟨res, w3, si, hsync, ?_, ?_, ?_⟩, rfl, ?_⟩
    · intro c hc
      exact ⟨hsi c hc, Call.isLoadBalancerCall_of_isStatusSyncCall c (hsi c hc)⟩
    · intro hres
      subst hres
      rw [hrec]
      simp [hnd, hw3]
    · intro hres
      cases res with
      | none => exact absurd rfl hres
      | some e =>
        rw [hrec]
        simpa using hw3
    · intro hdiff heq
      rw [← heq] at hdiff
      simp [Reconcile.mergeLoadBalancer] at hdiff

theorem reconcile_update_merges_witness :
    ((Scenario.manager (Except.ok Scenario.staleService) (Except.ok Scenario.staleEndpoints)
        none).reconcileService Scenario.desiredService Scenario.start).2.calls
      = [] ++ [Call.GetService { Name := "glb", Namespace := "default" },
          Call.UpdateService
            { Scenario.staleService with
              Spec :=
                { Scenario.staleService.Spec with Ports := Scenario.desiredService.Spec.Ports } }]
    ∧ ((Scenario.manager (Except.ok Scenario.staleService) (Except.ok Scenario.staleEndpoints)
        none).reconcileEndpoints Scenario.desiredEndpoints Scenario.start).2.calls
      = [] ++ [Call.GetEndpoints { Name := "glb", Namespace := "default" },
          Call.UpdateEndpoints
            { Scenario.staleEndpoints with Subsets := Scenario.desiredEndpoints.Subsets }]
    ∧ Reconcile.mergeLoadBalancer Scenario.staleLB Scenario.desiredLB ≠ Scenario.desiredLB :=
  have h := reconcile_update_merges Scenario.pkg
    (Scenario.reconciler Scenario.registered none (Except.ok Scenario.staleLB) none)
    (Scenario.manager (Except.ok Scenario.staleService) (Except.ok Scenario.staleEndpoints) none)
    Scenario.request Scenario.start
    ⟨(), [] ++ [Call.GetService Scenario.request.NamespacedName]⟩
    Scenario.registered Scenario.registered () Scenario.desiredService Scenario.staleService
    Scenario.desiredEndpoints Scenario.staleEndpoints Scenario.staleLB
  ⟨(h.1 rfl (by decide)).1, (h.2.1 rfl (by decide)).1,
    (h.2.2 rfl (by decide) (by decide) rfl rfl (by decide)).2.2 (Or.inl (by decide))⟩

end merge

/-! ## Idempotence -/

section idempotence
variable {σ : Type}

/-- C10: for every admitted, non-deleting Service that already carries the lb-finalizer token,
whose LoadBalancer is found and satisfies `LoadBalancerIsDesiredState` against the mapped
desired LoadBalancer, and whose `Status.LoadBalancer.Ingress` equals the LoadBalancer's,
`Reconcile` issues the two reads and nothing else (no create, update, status update or delete
on either cluster) and returns success; likewise `reconcileService` (`reconcileEndpoints`)
issues its read only and returns nil whenever the fetched `Spec.Ports` (`Subsets`) equal the
desired ones. -/
theorem reconcile_idempotent (k : KubelbPackage) (r : KubeLBServiceReconciler σ)
    (g : GlobalLoadBalancerReconciler σ) (req : Request) (w : Run σ)
    (service : corev1.Service) (st1 : σ)
    (desiredService actualService : corev1.Service)
    (desiredEndpoints actualEndpoints : corev1.Endpoints)
    (actualLB : kubelbk8ciov1alpha1.LoadBalancer) :
    (r.Client.Get w.world req.NamespacedName = (Except.ok service, st1) →
      Reconcile.notAdmitted r service = false →
      DeletionTimestampIsZero service.ObjectMeta.DeletionTimestamp = true →
      ContainsString service.ObjectMeta.Finalizers LBFinalizerName = true →
      (r.KubeLBManager.Get st1
          (ObjectKeyFromObject
            (k.MapLoadBalancer service (r.getEndpoints service) r.ClusterName).ObjectMeta)).1
        = Except.ok actualLB →
      k.LoadBalancerIsDesiredState actualLB
        (k.MapLoadBalancer service (r.getEndpoints service) r.ClusterName) = true →
      service.Status.LoadBalancer.Ingress = actualLB.Status.LoadBalancer.Ingress →
      r.Reconcile k req w =
          (({}, none),
            ⟨(r.KubeLBManager.Get st1
                (ObjectKeyFromObject
                  (k.MapLoadBalancer service (r.getEndpoints service)
                    r.ClusterName).ObjectMeta)).2,
              w.calls ++
                [Call.GetService req.NamespacedName,
                  Call.GetLoadBalancer
                    (ObjectKeyFromObject
                      (k.MapLoadBalancer service (r.getEndpoints service)
                        r.ClusterName).ObjectMeta)]⟩)
        ∧ ∀ c ∈ (r.Reconcile k req w).2.calls.drop w.calls.length, c.isWrite = false)
    ∧ ((g.Services.Get w.world
          { Name := desiredService.ObjectMeta.Name
            Namespace := desiredService.ObjectMeta.Namespace }).1 = Except.ok actualService →
      actualService.Spec.Ports = desiredService.Spec.Ports →
      g.reconcileService desiredService w =
          (none,
            ⟨(g.Services.Get w.world
                { Name := desiredService.ObjectMeta.Name
                  Namespace := desiredService.ObjectMeta.Namespace }).2,
              w.calls ++
                [Call.GetService
                  { Name := desiredService.ObjectMeta.Name
                    Namespace := desiredService.ObjectMeta.Namespace }]⟩)
        ∧ ∀ c ∈ (g.reconcileService desiredService w).2.calls.drop w.calls.length,
            c.isWrite = false)
    ∧ ((g.Endpoints.Get w.world
          { Name := desiredEndpoints.ObjectMeta.Name
            Namespace := desiredEndpoints.ObjectMeta.Namespace }).1 = Except.ok actualEndpoints →
      actualEndpoints.Subsets = desiredEndpoints.Subsets →
      g.reconcileEndpoints desiredEndpoints w =
          (none,
            ⟨(g.Endpoints.Get w.world
                { Name := desiredEndpoints.ObjectMeta.Name
                  Namespace := desiredEndpoints.ObjectMeta.Namespace }).2,
              w.calls ++
                [Call.GetEndpoints
                  { Name := desiredEndpoints.ObjectMeta.Name
                    Namespace := desiredEndpoints.ObjectMeta.Namespace }]⟩)
        ∧ ∀ c ∈ (g.reconcileEndpoints desiredEndpoints w).2.calls.drop w.calls.length,
            c.isWrite = false) := by
  refine ⟨?_, ?_, ?_⟩
  · intro hget hadm hdts hfin hlb hdes hst
    have hrec : r.Reconcile k req w =
          (({}, none),
            ⟨(r.KubeLBManager.Get st1
                (ObjectKeyFromObject
                  (k.MapLoadBalancer service (r.getEndpoints service)
                    r.ClusterName).ObjectMeta)).2,
              w.calls ++
                [Call.GetService req.NamespacedName,
                  Call.GetLoadBalancer
                    (ObjectKeyFromObject
                      (k.MapLoadBalancer service (r.getEndpoints service)
                        r.ClusterName).ObjectMeta)]⟩) := by
      rw [Reconcile_of_admitted_live k r req w service st1 hget hadm hdts]
      simp [Reconcile.setFinalizer, hfin, Reconcile.applyLoadBalancer, LoadBalancerClient.get,
        hlb, Reconcile.syncStatus, hst, hdes]
    refine ⟨hrec, ?_⟩
    rw [hrec]
    simp [Call.isWrite, Call.isRead]
  · intro hget heq
    have hrec : g.reconcileService desiredService w =
          (none,
            ⟨(g.Services.Get w.world
                { Name := desiredService.ObjectMeta.Name
                  Namespace := desiredService.ObjectMeta.Namespace }).2,
              w.calls ++
                [Call.GetService
                  { Name := desiredService.ObjectMeta.Name
                    Namespace := desiredService.ObjectMeta.Namespace }]⟩) := by
      simp [GlobalLoadBalancerReconciler.reconcileService, ServiceClient.get, hget, heq]
    refine ⟨hrec, ?_⟩
    rw [hrec]
    simp [Call.isWrite, Call.isRead]
  · intro hget heq
    have hrec : g.reconcileEndpoints desiredEndpoints w =
          (none,
            ⟨(g.Endpoints.Get w.world
                { Name := desiredEndpoints.ObjectMeta.Name
                  Namespace := desiredEndpoints.ObjectMeta.Namespace }).2,
              w.calls ++
                [Call.GetEndpoints
                  { Name := desiredEndpoints.ObjectMeta.Name
                    Namespace := desiredEndpoints.ObjectMeta.Namespace }]⟩) := by
      simp [GlobalLoadBalancerReconciler.reconcileEndpoints, EndpointsClient.get, hget, heq]
    refine ⟨hrec, ?_⟩
    rw [hrec]
    simp [Call.isWrite, Call.isRead]

theorem reconcile_idempotent_witness :
    (Scenario.reconciler Scenario.registered none (Except.ok Scenario.actualLB) none).Reconcile
        Scenario.pkg Scenario.request Scenario.start
      = (({}, none),
          ⟨(), [] ++ [Call.GetService Scenario.request.NamespacedName,
            Call.GetLoadBalancer { Namespace := "tenant-a", Name := "abc-123" }]⟩)
    ∧ (Scenario.manager (Except.ok Scenario.desiredService) (Except.ok Scenario.desiredEndpoints)
        none).reconcileService Scenario.desiredService Scenario.start
      = (none, ⟨(), [] ++ [Call.GetService { Name := "glb", Namespace := "default" }]⟩)
    ∧ (Scenario.manager (Except.ok Scenario.desiredService) (Except.ok Scenario.desiredEndpoints)
        none).reconcileEndpoints Scenario.desiredEndpoints Scenario.start
      = (none, ⟨(), [] ++ [Call.GetEndpoints { Name := "glb", Namespace := "default" }]⟩) :=
  have h := reconcile_idempotent Scenario.pkg
    (Scenario.reconciler Scenario.registered none (Except.ok Scenario.actualLB) none)
    (Scenario.manager (Except.ok Scenario.desiredService) (Except.ok Scenario.desiredEndpoints)
      none)
    Scenario.request Scenario.start Scenario.registered () Scenario.desiredService
    Scenario.desiredService Scenario.desiredEndpoints Scenario.desiredEndpoints Scenario.actualLB
  ⟨(h.1 rfl (by decide) (by decide) (by decide) rfl (by decide) rfl).1,
    (h.2.1 rfl rfl).1, (h.2.2 rfl rfl).1⟩

end idempotence

/-! ## Status back-propagation -/

section status
variable {σ : Type}

/-- One attempt of the status back-propagation, from any state: the re-fetch by key, followed
by the status update of the fetched Service exactly when the re-fetch returned one. -/
theorem Reconcile.statusAttempt_calls_eq (r : KubeLBServiceReconciler σ) (key : NamespacedName)
    (actualLB : kubelbk8ciov1alpha1.LoadBalancer) (s : corev1.Service × Run σ) :
    (Reconcile.statusAttempt r key actualLB s).2.2.calls = s.2.calls ++
      (match (r.Client.Get s.2.world key).1 with
        | Except.ok fetched =>
          [Call.GetService key,
            Call.UpdateServiceStatus
              { fetched with
                Status := { fetched.Status with LoadBalancer := actualLB.Status.LoadBalancer } }]
        | Except.error _ => [Call.GetService key]) := by
  unfold Reconcile.statusAttempt
  simp only [ServiceClient.get]
  cases hg : (r.Client.Get s.2.world key).1 with
  | error e => simp
  | ok fetched =>
    simp only [ServiceClient.statusUpdate]
    cases hu : (r.Client.StatusUpdate (r.Client.Get s.2.world key).2
        { fetched with
          Status := { fetched.Status with LoadBalancer := actualLB.Status.LoadBalancer } }).1
      <;> simp

theorem Reconcile.statusAttempt_calls_of (r : KubeLBServiceReconciler σ) (key : NamespacedName)
    (actualLB : kubelbk8ciov1alpha1.LoadBalancer) (s : corev1.Service × Run σ) :
    ∃ issued, (Reconcile.statusAttempt r key actualLB s).2.2.calls = s.2.calls ++ issued
      ∧ ∀ c ∈ issued, c.isStatusSyncOf key actualLB.Status.LoadBalancer = true := by
  refine ⟨_, Reconcile.statusAttempt_calls_eq r key actualLB s, ?_⟩
  cases (r.Client.Get s.2.world key).1 <;> simp [Call.isStatusSyncOf]

theorem Reconcile.retry_statusAttempt_calls_of (r : KubeLBServiceReconciler σ)
    (key : NamespacedName) (actualLB : kubelbk8ciov1alpha1.LoadBalancer) (n : Nat) :
    ∀ (s : corev1.Service × Run σ) (lastErr : Option Err),
      ∃ issued,
        (RetryOnConflict n (Reconcile.statusAttempt r key actualLB) s lastErr).2.2.calls
            = s.2.calls ++ issued
          ∧ ∀ c ∈ issued, c.isStatusSyncOf key actualLB.Status.LoadBalancer = true := by
  induction n with
  | zero =>
    intro s lastErr
    exact ⟨[], by simp [RetryOnConflict]⟩
  | succ n ih =>
    intro s lastErr
    obtain ⟨i1, h1, h1c⟩ := Reconcile.statusAttempt_calls_of r key actualLB s
    unfold RetryOnConflict
    rcases hfn : Reconcile.statusAttempt r key actualLB s with ⟨res, s1⟩
    rw [hfn] at h1
    cases res with
    | none => exact ⟨i1, by simpa using h1, h1c⟩
    | some e =>
      by_cases hc : IsConflict (some e) = true
      · obtain ⟨i2, h2, h2c⟩ := ih s1 (some e)
        refine ⟨i1 ++ i2, ?_, ?_⟩
        · simp only [hc, if_true]
          rw [h2]
          simp only [] at h1
          rw [h1, List.append_assoc]
        · intro c hcm
          rcases List.mem_append.1 hcm with hm | hm
          · exact h1c c hm
          · exact h2c c hm
      · exact ⟨i1, by simpa [hc] using h1, h1c⟩

/-- With at least one step, the retry loop runs the attempt once and then only adds calls of the
status back-propagation. -/
theorem Reconcile.retry_statusAttempt_first (r : KubeLBServiceReconciler σ)
    (key : NamespacedName) (actualLB : kubelbk8ciov1alpha1.LoadBalancer) (n : Nat)
    (s : corev1.Service × Run σ) (lastErr : Option Err) :
    ∃ more,
      (RetryOnConflict (n + 1) (Reconcile.statusAttempt r key actualLB) s lastErr).2.2.calls
          = (Reconcile.statusAttempt r key actualLB s).2.2.calls ++ more
        ∧ ∀ c ∈ more, c.isStatusSyncOf key actualLB.Status.LoadBalancer = true := by
  unfold RetryOnConflict
  rcases hfn : Reconcile.statusAttempt r key actualLB s with ⟨res, s1⟩
  cases res with
  | none => exact ⟨[], by simp⟩
  | some e =>
    by_cases hc : IsConflict (some e) = true
    · obtain ⟨i2, h2, h2c⟩ := Reconcile.retry_statusAttempt_calls_of r key actualLB n s1 (some e)
      exact ⟨i2, by simpa [hc] using h2, h2c⟩
    · exact ⟨[], by simp [hc]⟩

/-- Out of sync, the calls of the status back-propagation are those of the retry loop. -/
theorem Reconcile.syncStatus_calls_of_out_of_sync (r : KubeLBServiceReconciler σ)
    (service : corev1.Service) (actualLB : kubelbk8ciov1alpha1.LoadBalancer) (w : Run σ)
    (hty : service.Spec.Type_ = corev1.ServiceTypeLoadBalancer)
    (hne : actualLB.Status.LoadBalancer.Ingress ≠ service.Status.LoadBalancer.Ingress) :
    (Reconcile.syncStatus r service actualLB w).2.calls =
      (RetryOnConflict DefaultRetrySteps
        (Reconcile.statusAttempt r (ObjectKeyFromObject service.ObjectMeta) actualLB)
        (service, w) none).2.2.calls := by
  unfold Reconcile.syncStatus
  simp only [hty, hne, bne_self_eq_false, decide_False, Bool.or_false, Bool.false_eq_true,
    if_false, Bool.not_false, if_true]
  rcases hr : RetryOnConflict DefaultRetrySteps
      (Reconcile.statusAttempt r (ObjectKeyFromObject service.ObjectMeta) actualLB)
      (service, w) none with ⟨res, s1, w1⟩
  cases res <;> rfl

/-- Out of sync, the status back-propagation starts with the re-fetch of the Service by its key;
when the re-fetch returns the Service, the status update of that Service with the
LoadBalancer's status follows; everything after is again a re-fetch by the key or a status
update carrying the LoadBalancer's status. -/
theorem Reconcile.syncStatus_out_of_sync (r : KubeLBServiceReconciler σ)
    (service : corev1.Service) (actualLB : kubelbk8ciov1alpha1.LoadBalancer) (w : Run σ)
    (hty : service.Spec.Type_ = corev1.ServiceTypeLoadBalancer)
    (hne : actualLB.Status.LoadBalancer.Ingress ≠ service.Status.LoadBalancer.Ingress) :
    ∃ rest,
      (Reconcile.syncStatus r service actualLB w).2.calls
          = w.calls ++ Call.GetService (ObjectKeyFromObject service.ObjectMeta) :: rest
        ∧ (∀ fetched : corev1.Service,
            (r.Client.Get w.world (ObjectKeyFromObject service.ObjectMeta)).1 = Except.ok fetched →
            ∃ rest1, rest =
              Call.UpdateServiceStatus
                  { fetched with
                    Status :=
                      { fetched.Status with LoadBalancer := actualLB.Status.LoadBalancer } }
                :: rest1)
        ∧ ∀ c ∈ rest, c.isStatusSyncOf (ObjectKeyFromObject service.ObjectMeta)
            actualLB.Status.LoadBalancer = true := by
  rw [Reconcile.syncStatus_calls_of_out_of_sync r service actualLB w hty hne]
  obtain ⟨more, hmore, hmc⟩ := Reconcile.retry_statusAttempt_first r
    (ObjectKeyFromObject service.ObjectMeta) actualLB 4 (service, w) none
  have hfirst := Reconcile.statusAttempt_calls_eq r (ObjectKeyFromObject service.ObjectMeta)
    actualLB (service, w)
  have hsteps : DefaultRetrySteps = 4 + 1 := rfl
  rw [hsteps, hmore, hfirst]
  cases hg : (r.Client.Get w.world (ObjectKeyFromObject service.ObjectMeta)).1 with
  | error e =>
    refine ⟨more, by simp, ?_, hmc⟩
    intro fetched hf
    simp at hf
  | ok fetched0 =>
    refine ⟨Call.UpdateServiceStatus
        { fetched0 with
          Status := { fetched0.Status with LoadBalancer := actualLB.Status.LoadBalancer } }
      :: more, by simp, ?_, ?_⟩
    · intro fetched hf
      have : fetched0 = fetched := by simpa using hf
      subst this
      exact ⟨more, rfl⟩
    · intro c hc
      rcases List.mem_cons.1 hc with h | h
      · simp [h, Call.isStatusSyncOf]
      · exact hmc c h

/-- The finalizer registration only appends calls, all of them Service updates. -/
theorem Reconcile.setFinalizer_calls (r : KubeLBServiceReconciler σ) (service : corev1.Service)
    (w : Run σ) :
    ∃ issued, (Reconcile.setFinalizer r service w).2.calls = w.calls ++ issued
      ∧ ∀ c ∈ issued, c.isUpdateService = true := by
  unfold Reconcile.setFinalizer
  cases hfin : ContainsString service.ObjectMeta.Finalizers LBFinalizerName with
  | true => exact ⟨[], by simp⟩
  | false =>
    exact ⟨[Call.UpdateService
        { service with
          ObjectMeta :=
            { service.ObjectMeta with
              Finalizers := service.ObjectMeta.Finalizers.append LBFinalizerName } }],
      by simp [ServiceClient.update], by simp [Call.isUpdateService]⟩

/-- In sync, or for a Service that is not of type LoadBalancer, the status back-propagation
does nothing. -/
theorem Reconcile.syncStatus_of_in_sync (r : KubeLBServiceReconciler σ)
    (service : corev1.Service) (actualLB : kubelbk8ciov1alpha1.LoadBalancer) (w : Run σ)
    (h : service.Spec.Type_ ≠ corev1.ServiceTypeLoadBalancer
      ∨ actualLB.Status.LoadBalancer.Ingress = service.Status.LoadBalancer.Ingress) :
    Reconcile.syncStatus r service actualLB w = (none, w) := by
  unfold Reconcile.syncStatus
  rcases h with h | h
  · simp [h]
  · simp [h]

/-- C11: for every admitted, non-deleting Service whose LoadBalancer was found: if the Service
type is not LoadBalancer, or the LoadBalancer's `Status.LoadBalancer.Ingress` equals the
Service's, `Reconcile` issues no Service status update. Otherwise the call after the fetch of
the LoadBalancer is the re-fetch of the Service by its key, and the re-fetched Service is then
sent as a status update with its load-balancer status replaced by the LoadBalancer's and its
other fields as just fetched; every status update `Reconcile` issues carries the LoadBalancer's
status, and every attempt of the retry loop is this re-fetch followed by this update. -/
theorem Reconcile_status_propagation (k : KubelbPackage) (r : KubeLBServiceReconciler σ)
    (req : Request) (w w2 : Run σ) (service service1 : corev1.Service) (st1 : σ)
    (actualLB : kubelbk8ciov1alpha1.LoadBalancer)
    (hget : r.Client.Get w.world req.NamespacedName = (Except.ok service, st1))
    (hadm : Reconcile.notAdmitted r service = false)
    (hdts : DeletionTimestampIsZero service.ObjectMeta.DeletionTimestamp = true)
    (hset : Reconcile.setFinalizer r service
        ⟨st1, w.calls ++ [Call.GetService req.NamespacedName]⟩ = (Except.ok service1, w2))
    (hlb : (r.KubeLBManager.Get w2.world
        (ObjectKeyFromObject
          (k.MapLoadBalancer service1 (r.getEndpoints service) r.ClusterName).ObjectMeta)).1
      = Except.ok actualLB) :
    ((service1.Spec.Type_ ≠ corev1.ServiceTypeLoadBalancer
        ∨ actualLB.Status.LoadBalancer.Ingress = service1.Status.LoadBalancer.Ingress) →
      ∃ issued, (r.Reconcile k req w).2.calls = w.calls ++ issued
        ∧ ∀ c ∈ issued, c.isUpdateServiceStatus = false)
    ∧ (service1.Spec.Type_ = corev1.ServiceTypeLoadBalancer →
      actualLB.Status.LoadBalancer.Ingress ≠ service1.Status.LoadBalancer.Ingress →
      ∃ rest, (r.Reconcile k req w).2.calls = w2.calls ++
            Call.GetLoadBalancer
                (ObjectKeyFromObject
                  (k.MapLoadBalancer service1 (r.getEndpoints service)
                    r.ClusterName).ObjectMeta)
              :: Call.GetService (ObjectKeyFromObject service1.ObjectMeta)
              :: rest
        ∧ (∀ fetched : corev1.Service,
            (r.Client.Get
                (r.KubeLBManager.Get w2.world
                  (ObjectKeyFromObject
                    (k.MapLoadBalancer service1 (r.getEndpoints service)
                      r.ClusterName).ObjectMeta)).2
                (ObjectKeyFromObject service1.ObjectMeta)).1 = Except.ok fetched →
            ∃ rest1, rest =
              Call.UpdateServiceStatus
                  { ObjectMeta := fetched.ObjectMeta
                    Spec := fetched.Spec
                    Status :=
                      { LoadBalancer := actualLB.Status.LoadBalancer
                        Conditions := fetched.Status.Conditions } }
                :: rest1)
        ∧ (∀ obj : corev1.Service, Call.UpdateServiceStatus obj ∈ rest →
            obj.Status.LoadBalancer = actualLB.Status.LoadBalancer))
    ∧ (∀ s : corev1.Service × Run σ,
        (Reconcile.statusAttempt r (ObjectKeyFromObject service1.ObjectMeta) actualLB s).2.2.calls
          = s.2.calls ++
            (match (r.Client.Get s.2.world (ObjectKeyFromObject service1.ObjectMeta)).1 with
              | Except.ok fetched =>
                [Call.GetService (ObjectKeyFromObject service1.ObjectMeta),
                  Call.UpdateServiceStatus
                    { ObjectMeta := fetched.ObjectMeta
                      Spec := fetched.Spec
                      Status :=
                        { LoadBalancer := actualLB.Status.LoadBalancer
                          Conditions := fetched.Status.Conditions } }]
              | Except.error _ => [Call.GetService (ObjectKeyFromObject service1.ObjectMeta)]))
    := by
  have hrec := Reconcile_of_admitted_live k r req w service st1 hget hadm hdts
  rw [hset] at hrec
  simp only [] at hrec
  obtain ⟨res, w3, si, hsync, hw3, _, happ⟩ :=
    Reconcile.applyLoadBalancer_of_found k r service1 _ w2 actualLB hlb
  rw [happ] at hrec
  refine ⟨?_, ?_, ?_⟩
  · intro hin
    rw [Reconcile.syncStatus_of_in_sync r service1 actualLB _ hin] at hsync
    obtain ⟨fi, hfi, hfic⟩ := Reconcile.setFinalizer_calls r service
      ⟨st1, w.calls ++ [Call.GetService req.NamespacedName]⟩
    rw [hset] at hfi
    simp only [] at hfi
    have hres : res = none := (Prod.mk.inj hsync).1.symm
    obtain ⟨base, hb⟩ : ∃ base : List Call, base = Call.GetService req.NamespacedName :: fi ++
        [Call.GetLoadBalancer
          (ObjectKeyFromObject
            (k.MapLoadBalancer service1 (r.getEndpoints service) r.ClusterName).ObjectMeta)] :=
      ⟨_, rfl⟩
    have hw3' : w3.calls = w.calls ++ base := by
      rw [← (Prod.mk.inj hsync).2, hb]
      simp [hfi]
    have hbase : ∀ c ∈ base, c.isUpdateServiceStatus = false := by
      intro c hc
      rw [hb] at hc
      simp only [List.cons_append, List.mem_cons, List.mem_append, List.mem_singleton,
        List.not_mem_nil, or_false] at hc
      rcases hc with h | h | h
      · simp [h, Call.isUpdateServiceStatus]
      · have := hfic c h
        cases c <;> simp_all [Call.isUpdateService, Call.isUpdateServiceStatus]
      · simp [h, Call.isUpdateServiceStatus]
    subst hres
    rw [hrec]
    cases hd : k.LoadBalancerIsDesiredState actualLB
      (k.MapLoadBalancer service1 (r.getEndpoints service) r.ClusterName)
    · refine ⟨base ++ [Call.UpdateLoadBalancer (Reconcile.mergeLoadBalancer actualLB
          (k.MapLoadBalancer service1 (r.getEndpoints service) r.ClusterName))], ?_, ?_⟩
      · simp only [Bool.false_eq_true, if_false]
        rw [hw3', List.append_assoc]
      · intro c hc
        rcases List.mem_append.1 hc with h | h
        · exact hbase c h
        · simp at h
          simp [h, Call.isUpdateServiceStatus]
    · exact ⟨base, by simpa using hw3', hbase⟩
  · intro hty hne
    obtain ⟨rest, hcalls, hfirst, hall⟩ := Reconcile.syncStatus_out_of_sync r service1 actualLB
      ⟨(r.KubeLBManager.Get w2.world
          (ObjectKeyFromObject
            (k.MapLoadBalancer service1 (r.getEndpoints service) r.ClusterName).ObjectMeta)).2,
        w2.calls ++
          [Call.GetLoadBalancer
            (ObjectKeyFromObject
              (k.MapLoadBalancer service1 (r.getEndpoints service)
                r.ClusterName).ObjectMeta)]⟩
      hty hne
    rw [hsync] at hcalls
    simp only [List.append_assoc, List.singleton_append] at hcalls
    have hstat : ∀ obj : corev1.Service, Call.UpdateServiceStatus obj ∈ rest →
        obj.Status.LoadBalancer = actualLB.Status.LoadBalancer := by
      intro obj hobj
      have := hall _ hobj
      simpa [Call.isStatusSyncOf] using this
    rw [hrec]
    cases res with
    | some e => exact ⟨rest, hcalls, hfirst, hstat⟩
    | none =>
      cases hd : k.LoadBalancerIsDesiredState actualLB
        (k.MapLoadBalancer service1 (r.getEndpoints service) r.ClusterName)
      · refine ⟨rest ++ [Call.UpdateLoadBalancer (Reconcile.mergeLoadBalancer actualLB
            (k.MapLoadBalancer service1 (r.getEndpoints service) r.ClusterName))], ?_, ?_, ?_⟩
        · simp [hcalls]
        · intro fetched hf
          obtain ⟨rest1, hr1⟩ := hfirst fetched hf
          exact ⟨rest1 ++ [Call.UpdateLoadBalancer (Reconcile.mergeLoadBalancer actualLB
            (k.MapLoadBalancer service1 (r.getEndpoints service) r.ClusterName))],
            by simp [hr1]⟩
        · intro obj hobj
          rcases List.mem_append.1 hobj with h | h
          · exact hstat obj h
          · simp at h
      · exact ⟨rest, by simpa using hcalls, hfirst, hstat⟩
  · intro s
    exact Reconcile.statusAttempt_calls_eq r (ObjectKeyFromObject service1.ObjectMeta) actualLB s

theorem Reconcile_status_propagation_witness :
    ∃ rest,
      ((Scenario.reconciler Scenario.registered none (Except.ok Scenario.provisionedLB)
          none).Reconcile Scenario.pkg Scenario.request Scenario.start).2.calls
        = ([] ++ [Call.GetService Scenario.request.NamespacedName]) ++
            Call.GetLoadBalancer { Namespace := "tenant-a", Name := "abc-123" }
              :: Call.GetService { Namespace := "default", Name := "web" }
              :: rest
      ∧ ∀ obj : corev1.Service, Call.UpdateServiceStatus obj ∈ rest →
          obj.Status.LoadBalancer = { Ingress := Slice.mk [{ IP := "203.0.113.5" }] } :=
  ((Reconcile_status_propagation Scenario.pkg
      (Scenario.reconciler Scenario.registered none (Except.ok Scenario.provisionedLB) none)
      Scenario.request Scenario.start
      ⟨(), [] ++ [Call.GetService Scenario.request.NamespacedName]⟩
      Scenario.registered Scenario.registered () Scenario.provisionedLB
      rfl (by decide) (by decide) rfl rfl).2.1 rfl (by decide)).imp
    fun _ h => ⟨h.1, h.2.2⟩

end status

/-! ## Cross-cluster correlation -/

section correlate
variable {σ : Type}

/-- C12: for every management-cluster LoadBalancer, the map function of `enqueueLoadBalancer`
yields the empty request list if the object's namespace differs from `ClusterName`, or its
`Spec.Type` is not LoadBalancer, or the origin-namespace or the origin-name label is absent or
empty; in every other case both labels are present and it yields exactly one request, whose
namespace is the origin-namespace label value and whose name is the origin-name label value. -/
theorem enqueueLoadBalancer_requests (k : KubelbPackage) (r : KubeLBServiceReconciler σ)
    (a : kubelbk8ciov1alpha1.LoadBalancer) :
    ((a.ObjectMeta.Namespace ≠ r.ClusterName
        ∨ a.Spec.Type_ ≠ corev1.ServiceTypeLoadBalancer
        ∨ a.ObjectMeta.Labels.lookup k.LabelOriginNamespace = none
        ∨ a.ObjectMeta.Labels.lookup k.LabelOriginNamespace = some ""
        ∨ a.ObjectMeta.Labels.lookup k.LabelOriginName = none
        ∨ a.ObjectMeta.Labels.lookup k.LabelOriginName = some "") →
      r.enqueueLoadBalancer k a = Slice.mk [])
    ∧ (¬ (a.ObjectMeta.Namespace ≠ r.ClusterName
        ∨ a.Spec.Type_ ≠ corev1.ServiceTypeLoadBalancer
        ∨ a.ObjectMeta.Labels.lookup k.LabelOriginNamespace = none
        ∨ a.ObjectMeta.Labels.lookup k.LabelOriginNamespace = some ""
        ∨ a.ObjectMeta.Labels.lookup k.LabelOriginName = none
        ∨ a.ObjectMeta.Labels.lookup k.LabelOriginName = some "") →
      ∃ originalNamespace originalName : String,
        a.ObjectMeta.Labels.lookup k.LabelOriginNamespace = some originalNamespace
          ∧ a.ObjectMeta.Labels.lookup k.LabelOriginName = some originalName
          ∧ r.enqueueLoadBalancer k a =
              Slice.mk
                [{ NamespacedName :=
                    { Namespace := originalNamespace, Name := originalName } }]
          ∧ (r.enqueueLoadBalancer k a).toList.length = 1) := by
  unfold KubeLBServiceReconciler.enqueueLoadBalancer
  by_cases hns : a.ObjectMeta.Namespace = r.ClusterName
  · by_cases hty : a.Spec.Type_ = corev1.ServiceTypeLoadBalancer
    · cases hon : a.ObjectMeta.Labels.lookup k.LabelOriginNamespace with
      | none => simp [hns, hty, StringMap.index, hon]
      | some ons =>
        by_cases hons : ons = ""
        · simp [hns, hty, StringMap.index, hon, hons]
        · cases hnm : a.ObjectMeta.Labels.lookup k.LabelOriginName with
          | none => simp [hns, hty, StringMap.index, hon, hons, hnm]
          | some onm =>
            by_cases honm : onm = ""
            · simp [hns, hty, StringMap.index, hon, hons, hnm, honm]
            · simp [hns, hty, StringMap.index, hon, hons, hnm, honm, Slice.toList]
    · simp [hns, hty]
  · simp [hns]

theorem enqueueLoadBalancer_requests_witness :
    ∃ originalNamespace originalName : String,
      Scenario.provisionedLB.ObjectMeta.Labels.lookup Scenario.pkg.LabelOriginNamespace
          = some originalNamespace
        ∧ Scenario.provisionedLB.ObjectMeta.Labels.lookup Scenario.pkg.LabelOriginName
          = some originalName
        ∧ (Scenario.reconciler Scenario.registered none (Except.ok Scenario.provisionedLB)
            none).enqueueLoadBalancer Scenario.pkg Scenario.provisionedLB
          = Slice.mk
              [{ NamespacedName := { Namespace := originalNamespace, Name := originalName } }]
        ∧ ((Scenario.reconciler Scenario.registered none (Except.ok Scenario.provisionedLB)
            none).enqueueLoadBalancer Scenario.pkg Scenario.provisionedLB).toList.length = 1 :=
  (enqueueLoadBalancer_requests Scenario.pkg
    (Scenario.reconciler Scenario.registered none (Except.ok Scenario.provisionedLB) none)
    Scenario.provisionedLB).2 (by decide)

end correlate

/-! ## Endpoint resolution -/

section endpoints
variable {σ : Type}

theorem getEndpoints.step_eq (acc : Slice String) (lbIngress : corev1.LoadBalancerIngress) :
    getEndpoints.step acc lbIngress =
      Slice.mk (acc.toList ++ [if lbIngress.IP = "" then lbIngress.Hostname else lbIngress.IP])
    := by
  unfold getEndpoints.step
  by_cases h : lbIngress.IP = "" <;> simp [h, Slice.append]

theorem getEndpoints.foldl_mk (xs : List corev1.LoadBalancerIngress) (ys : List String) :
    xs.foldl getEndpoints.step (Slice.mk ys) =
      Slice.mk (ys ++ xs.map fun i => if i.IP = "" then i.Hostname else i.IP) := by
  induction xs generalizing ys with
  | nil => simp
  | cons x rest ih =>
    rw [List.foldl_cons, getEndpoints.step_eq, Slice.toList_mk, ih]
    simp

theorem getEndpoints.foldl_nil (xs : List corev1.LoadBalancerIngress) :
    xs.foldl getEndpoints.step Slice.nil =
      if xs = [] then Slice.nil
      else Slice.mk (xs.map fun i => if i.IP = "" then i.Hostname else i.IP) := by
  cases xs with
  | nil => simp
  | cons x rest =>
    rw [List.foldl_cons, getEndpoints.step_eq, Slice.toList_nil, getEndpoints.foldl_mk]
    simp

/-- C13: for every Service, when its type is LoadBalancer and cloud-controller mode is off,
`getEndpoints` returns one entry per element of the Service's status ingress list, in the same
order, each the element's IP if that is non-empty and its hostname otherwise; the result has
the length of the ingress list and does not depend on the static list, an empty ingress list
giving the nil slice. In every other case (cloud-controller mode on, or type not LoadBalancer)
it returns exactly the configured `ClusterEndpoints`. -/
theorem getEndpoints_result (r : KubeLBServiceReconciler σ) (service : corev1.Service) :
    (service.Spec.Type_ = corev1.ServiceTypeLoadBalancer → r.CloudController = false →
      (r.getEndpoints service).toList
          = service.Status.LoadBalancer.Ingress.toList.map
              (fun i => if i.IP = "" then i.Hostname else i.IP)
        ∧ (r.getEndpoints service).toList.length
          = service.Status.LoadBalancer.Ingress.toList.length
        ∧ (service.Status.LoadBalancer.Ingress.toList = [] → r.getEndpoints service = Slice.nil)
        ∧ (∀ r1 : KubeLBServiceReconciler σ, r1.CloudController = false →
            r1.getEndpoints service = r.getEndpoints service))
    ∧ ((r.CloudController = true ∨ service.Spec.Type_ ≠ corev1.ServiceTypeLoadBalancer) →
        r.getEndpoints service = r.Endpoints.ClusterEndpoints) := by
  refine ⟨?_, ?_⟩
  · intro hty hcc
    have hval : ∀ r1 : KubeLBServiceReconciler σ, r1.CloudController = false →
        r1.getEndpoints service =
          if service.Status.LoadBalancer.Ingress.toList = [] then Slice.nil
          else Slice.mk (service.Status.LoadBalancer.Ingress.toList.map
            fun i => if i.IP = "" then i.Hostname else i.IP) := by
      intro r1 h1
      simp [KubeLBServiceReconciler.getEndpoints, hty, h1, getEndpoints.foldl_nil]
    have hmap : (r.getEndpoints service).toList
          = service.Status.LoadBalancer.Ingress.toList.map
              (fun i => if i.IP = "" then i.Hostname else i.IP) := by
      rw [hval r hcc]
      by_cases he : service.Status.LoadBalancer.Ingress.toList = []
      · simp [he, Slice.toList_nil]
      · simp [he, Slice.toList_mk]
    refine ⟨hmap, ?_, ?_, ?_⟩
    · rw [hmap, List.length_map]
    · intro he
      rw [hval r hcc]
      simp [he]
    · intro r1 h1
      rw [hval r1 h1, hval r hcc]
  · intro h
    rcases h with h | h
    · simp [KubeLBServiceReconciler.getEndpoints, h]
    · simp [KubeLBServiceReconciler.getEndpoints, h]

theorem getEndpoints_result_witness :
    ((Scenario.reconciler Scenario.fronted none (Except.ok Scenario.provisionedLB)
        none).getEndpoints Scenario.fronted).toList
      = (Slice.mk [({ IP := "1.2.3.4" } : corev1.LoadBalancerIngress), { Hostname := "h" }]).toList.map
          (fun i => if i.IP = "" then i.Hostname else i.IP)
    ∧ (Scenario.cutOff Scenario.serverError (Except.ok Scenario.provisionedLB)).getEndpoints
        { Scenario.fronted with
          Spec := { Scenario.fronted.Spec with Type_ := corev1.ServiceTypeNodePort } }
      = Slice.mk ["10.0.0.1"] :=
  ⟨((getEndpoints_result
      (Scenario.reconciler Scenario.fronted none (Except.ok Scenario.provisionedLB) none)
      Scenario.fronted).1 rfl rfl).1,
    (getEndpoints_result (Scenario.cutOff Scenario.serverError (Except.ok Scenario.provisionedLB))
      { Scenario.fronted with
        Spec := { Scenario.fronted.Spec with Type_ := corev1.ServiceTypeNodePort } }).2
      (Or.inr (by decide))⟩

end endpoints

/-! ## Errors of the initial fetch -/

section fetch
variable {σ : Type}

/-- Whatever error the initial fetch of the Service fails with, `Reconcile` returns nil right
after it. -/
theorem Reconcile_of_get_error (k : KubelbPackage) (r : KubeLBServiceReconciler σ)
    (req : Request) (w : Run σ) (e : Err)
    (hget : (r.Client.Get w.world req.NamespacedName).1 = Except.error e) :
    r.Reconcile k req w =
      (({}, none),
        ⟨(r.Client.Get w.world req.NamespacedName).2,
          w.calls ++ [Call.GetService req.NamespacedName]⟩) := by
  simp [KubeLBServiceReconciler.Reconcile, ServiceClient.get, hget]

/-- C14 fails on the code for the initial fetch: when the fetch of the Service fails with a
server error that is neither NotFound nor Conflict, `Reconcile` returns a nil error after that
single call, whereas the same error from the fetch of the LoadBalancer is returned to the
caller. -/
theorem Reconcile_swallows_fetch_error :
    IsNotFound (some Scenario.serverError) = false
    ∧ IsConflict (some Scenario.serverError) = false
    ∧ (Scenario.cutOff Scenario.serverError (Except.ok Scenario.actualLB)).Reconcile
          Scenario.pkg Scenario.request Scenario.start
        = (({}, none), ⟨(), [Call.GetService Scenario.request.NamespacedName]⟩)
    ∧ ((Scenario.reconciler Scenario.registered none (Except.error Scenario.serverError)
          none).Reconcile Scenario.pkg Scenario.request Scenario.start).1.2
        = some Scenario.serverError := by
  refine ⟨by decide, by decide, ?_, by decide⟩
  exact Reconcile_of_get_error Scenario.pkg
    (Scenario.cutOff Scenario.serverError (Except.ok Scenario.actualLB))
    Scenario.request Scenario.start Scenario.serverError rfl

end fetch

/-! ## The legacy mapping -/

section legacy
variable {σ : Type}

/-- C15: for every legacy ingress resource `glb`, `mapService glb` is a Service with the name
and namespace of `glb`, `Spec.Ports` equal to `glb.Spec.Ports` and type LoadBalancer, all other
fields zero, and `mapEndpoints glb` is an Endpoints object with the name and namespace of `glb`
and `Subsets` equal to `glb.Spec.Subsets`; so the two generated objects share name and
namespace, and mapping again, through any reconciler and from any resource that agrees on the
fields read, gives equal results. -/
theorem mapService_mapEndpoints (g g1 : GlobalLoadBalancerReconciler σ)
    (glb glb1 : kubelbiov1alpha1.GlobalLoadBalancer) :
    ((g.mapService glb).ObjectMeta.Name = glb.ObjectMeta.Name
      ∧ (g.mapService glb).ObjectMeta.Namespace = glb.ObjectMeta.Namespace
      ∧ (g.mapService glb).Spec.Ports = glb.Spec.Ports
      ∧ (g.mapService glb).Spec.Type_ = corev1.ServiceTypeLoadBalancer
      ∧ g.mapService glb =
          { ObjectMeta := { Name := glb.ObjectMeta.Name, Namespace := glb.ObjectMeta.Namespace }
            Spec := { Ports := glb.Spec.Ports, Type_ := corev1.ServiceTypeLoadBalancer } })
    ∧ ((g.mapEndpoints glb).ObjectMeta.Name = glb.ObjectMeta.Name
      ∧ (g.mapEndpoints glb).ObjectMeta.Namespace = glb.ObjectMeta.Namespace
      ∧ (g.mapEndpoints glb).Subsets = glb.Spec.Subsets
      ∧ g.mapEndpoints glb =
          { ObjectMeta := { Name := glb.ObjectMeta.Name, Namespace := glb.ObjectMeta.Namespace }
            Subsets := glb.Spec.Subsets })
    ∧ ((g.mapService glb).ObjectMeta.Name = (g.mapEndpoints glb).ObjectMeta.Name
      ∧ (g.mapService glb).ObjectMeta.Namespace = (g.mapEndpoints glb).ObjectMeta.Namespace)
    ∧ (glb.ObjectMeta.Name = glb1.ObjectMeta.Name →
        glb.ObjectMeta.Namespace = glb1.ObjectMeta.Namespace →
        (glb.Spec.Ports = glb1.Spec.Ports → g.mapService glb = g1.mapService glb1)
          ∧ (glb.Spec.Subsets = glb1.Spec.Subsets → g.mapEndpoints glb = g1.mapEndpoints glb1))
    := by
  refine ⟨⟨rfl, rfl, rfl, rfl, rfl⟩, ⟨rfl, rfl, rfl, rfl⟩, ⟨rfl, rfl⟩, ?_⟩
  intro hn hns
  constructor
  · intro hp
    simp [GlobalLoadBalancerReconciler.mapService, hn, hns, hp]
  · intro hsub
    simp [GlobalLoadBalancerReconciler.mapEndpoints, hn, hns, hsub]

theorem mapService_mapEndpoints_witness :
    (Scenario.manager (Except.error Scenario.notFound) (Except.error Scenario.notFound)
        none).mapService Scenario.glb
      = (Scenario.manager (Except.ok Scenario.staleService) (Except.ok Scenario.staleEndpoints)
          (some Scenario.serverError)).mapService
          { Scenario.glb with ObjectMeta := { Scenario.glb.ObjectMeta with UID := "glb-uid" } }
    ∧ (Scenario.manager (Except.error Scenario.notFound) (Except.error Scenario.notFound)
        none).mapEndpoints Scenario.glb
      = (Scenario.manager (Except.ok Scenario.staleService) (Except.ok Scenario.staleEndpoints)
          (some Scenario.serverError)).mapEndpoints
          { Scenario.glb with ObjectMeta := { Scenario.glb.ObjectMeta with UID := "glb-uid" } } :=
  have h := (mapService_mapEndpoints
    (Scenario.manager (Except.error Scenario.notFound) (Except.error Scenario.notFound) none)
    (Scenario.manager (Except.ok Scenario.staleService) (Except.ok Scenario.staleEndpoints)
      (some Scenario.serverError))
    Scenario.glb
    { Scenario.glb with ObjectMeta := { Scenario.glb.ObjectMeta with UID := "glb-uid" } }).2.2.2
    rfl rfl
  ⟨h.1 rfl, h.2 rfl⟩

end legacy

/-! ## Admission before deletion -/

section order
variable {σ : Type}

/-- C16: the admission check runs before the deletion check. For every Service that has its
deletion timestamp set and still carries the lb-finalizer token but does not pass the admission
rule, `Reconcile` returns success having issued only the read of the Service: no LoadBalancer
delete and no Service update, so the token stays on the Service. `cleanupService`, which runs
for such a Service only once the check has let it through, is not called: it would have issued
the delete of the LoadBalancer. -/
theorem Reconcile_rejects_before_cleanup (k : KubelbPackage) (r : KubeLBServiceReconciler σ)
    (req : Request) (w : Run σ) (service : corev1.Service) (st1 : σ)
    (hget : r.Client.Get w.world req.NamespacedName = (Except.ok service, st1))
    (hdts : DeletionTimestampIsZero service.ObjectMeta.DeletionTimestamp = false)
    (hfin : ContainsString service.ObjectMeta.Finalizers LBFinalizerName = true)
    (hrej : ¬ ((service.Spec.Type_ = corev1.ServiceTypeNodePort
          ∨ service.Spec.Type_ = corev1.ServiceTypeLoadBalancer)
        ∧ (AnnotationServiceClassMatcher.Match service.ObjectMeta.Annotations = true
          ∨ (r.CloudController = true
            ∧ service.Spec.Type_ = corev1.ServiceTypeLoadBalancer)))) :
    r.Reconcile k req w =
        (({}, none), ⟨st1, w.calls ++ [Call.GetService req.NamespacedName]⟩)
    ∧ (∀ c ∈ (r.Reconcile k req w).2.calls.drop w.calls.length,
        c.isDeleteLoadBalancer = false ∧ c.isUpdateService = false)
    ∧ Reconcile.admitted k r service ⟨st1, w.calls ++ [Call.GetService req.NamespacedName]⟩
        = ((r.cleanupService service
              ⟨st1, w.calls ++ [Call.GetService req.NamespacedName]⟩).1,
            (r.cleanupService service
              ⟨st1, w.calls ++ [Call.GetService req.NamespacedName]⟩).2.2)
    ∧ (∃ more,
        (r.cleanupService service
            ⟨st1, w.calls ++ [Call.GetService req.NamespacedName]⟩).2.2.calls
          = (w.calls ++ [Call.GetService req.NamespacedName]) ++
              Call.DeleteLoadBalancer
                  { ObjectMeta :=
                      { Name := service.ObjectMeta.UID, Namespace := r.ClusterName } }
                :: more) := by
  have hna : Reconcile.notAdmitted r service = true := by
    cases hb : Reconcile.notAdmitted r service with
    | true => rfl
    | false => exact absurd ((Reconcile.notAdmitted_eq_false_iff r service).1 hb) hrej
  have hrec : r.Reconcile k req w =
      (({}, none), ⟨st1, w.calls ++ [Call.GetService req.NamespacedName]⟩) := by
    simp [KubeLBServiceReconciler.Reconcile, ServiceClient.get, hget, hna]
  refine ⟨hrec, ?_, ?_, ?_⟩
  · rw [hrec]
    simp [Call.isDeleteLoadBalancer, Call.isUpdateService]
  · simp [Reconcile.admitted, hdts]
  · have hcalls := cleanupService_calls r service
      ⟨st1, w.calls ++ [Call.GetService req.NamespacedName]⟩
    simp only [hfin, Bool.true_eq_false, if_false] at hcalls
    rw [hcalls]
    by_cases hd : (r.KubeLBManager.Delete st1
        { ObjectMeta := { Name := service.ObjectMeta.UID, Namespace := r.ClusterName } }).1
          = none
    · rw [if_pos hd]
      exact ⟨[Call.UpdateService
          { service with
            ObjectMeta :=
              { service.ObjectMeta with
                Finalizers := RemoveString service.ObjectMeta.Finalizers LBFinalizerName } }],
        rfl⟩
    · rw [if_neg hd]
      exact ⟨[], rfl⟩

theorem Reconcile_rejects_before_cleanup_witness :
    (Scenario.reconciler Scenario.orphaned none (Except.ok Scenario.actualLB) none).Reconcile
        Scenario.pkg Scenario.request Scenario.start
      = (({}, none), ⟨(), [] ++ [Call.GetService Scenario.request.NamespacedName]⟩) :=
  (Reconcile_rejects_before_cleanup Scenario.pkg
    (Scenario.reconciler Scenario.orphaned none (Except.ok Scenario.actualLB) none)
    Scenario.request Scenario.start Scenario.orphaned () rfl (by decide) (by decide)
    (by decide)).1

end order

end KubeLB
